import Mathlib

/-!
Shallow embedding of the `dbc_parser` repository (`parser_tatsu.py`): the
DBC object model, the lexical readers, and the semantic-binder passes of
`DbcFactory`, together with theorems settling the specification claims.

The Python parse tree produced by the tatsu grammar is dynamically typed:
nodes are strings, lists, dict-like AST objects, or `None`.  We embed it as
the inductive `PyVal`.  Python exceptions become an explicit error type
`DbcError`, mapped onto the spec's taxonomy: a `RuntimeError` raised on an
"already in" check becomes `DuplicateEntity`, a `KeyError` on an index
lookup becomes `UnresolvedReference`, a closed-set token decoder's
`RuntimeError` becomes `UnexpectedToken`, and the dynamic-typing errors
(`ValueError` from `int()`/`float()`, `IndexError`, `TypeError`,
`AttributeError`) keep their Python names.  IEEE-754 doubles are modelled
by exact rationals (`Rat`); no claim in scope observes rounding.
-/

/-- A Python value of the tatsu parse tree: `None`, a string, a list, or a
dict-like AST node with string keys. -/
inductive PyVal where
  | none
  | str (s : String)
  | list (xs : List PyVal)
  | dict (entries : List (String × PyVal))
deriving Repr

mutual

/-- Decidable equality for `PyVal` (written by hand: `deriving` does not
handle the nesting through `List` and products). -/
def PyVal.decEq : (a b : PyVal) → Decidable (a = b)
  | .none, .none => isTrue rfl
  | .none, .str _ => isFalse (fun h => nomatch h)
  | .none, .list _ => isFalse (fun h => nomatch h)
  | .none, .dict _ => isFalse (fun h => nomatch h)
  | .str _, .none => isFalse (fun h => nomatch h)
  | .str a, .str b =>
    match String.decEq a b with
    | isTrue h => isTrue (h ▸ rfl)
    | isFalse h => isFalse (fun hh => h (PyVal.str.inj hh))
  | .str _, .list _ => isFalse (fun h => nomatch h)
  | .str _, .dict _ => isFalse (fun h => nomatch h)
  | .list _, .none => isFalse (fun h => nomatch h)
  | .list _, .str _ => isFalse (fun h => nomatch h)
  | .list xs, .list ys =>
    match PyVal.decEqList xs ys with
    | isTrue h => isTrue (h ▸ rfl)
    | isFalse h => isFalse (fun hh => h (PyVal.list.inj hh))
  | .list _, .dict _ => isFalse (fun h => nomatch h)
  | .dict _, .none => isFalse (fun h => nomatch h)
  | .dict _, .str _ => isFalse (fun h => nomatch h)
  | .dict _, .list _ => isFalse (fun h => nomatch h)
  | .dict xs, .dict ys =>
    match PyVal.decEqDict xs ys with
    | isTrue h => isTrue (h ▸ rfl)
    | isFalse h => isFalse (fun hh => h (PyVal.dict.inj hh))

/-- Decidable equality for lists of `PyVal`. -/
def PyVal.decEqList : (a b : List PyVal) → Decidable (a = b)
  | [], [] => isTrue rfl
  | [], _ :: _ => isFalse (fun h => nomatch h)
  | _ :: _, [] => isFalse (fun h => nomatch h)
  | x :: xs, y :: ys =>
    match PyVal.decEq x y with
    | isTrue h1 =>
      match PyVal.decEqList xs ys with
      | isTrue h2 => isTrue (h1 ▸ h2 ▸ rfl)
      | isFalse h2 => isFalse (fun hh => h2 (List.cons.inj hh).2
      )
    | isFalse h1 => isFalse (fun hh => h1 (List.cons.inj hh).1)

/-- Decidable equality for dict entry lists. -/
def PyVal.decEqDict : (a b : List (String × PyVal)) → Decidable (a = b)
  | [], [] => isTrue rfl
  | [], _ :: _ => isFalse (fun h => nomatch h)
  | _ :: _, [] => isFalse (fun h => nomatch h)
  | (k, v) :: xs, (k', v') :: ys =>
    match String.decEq k k' with
    | isTrue hk =>
      match PyVal.decEq v v' with
      | isTrue hv =>
        match PyVal.decEqDict xs ys with
        | isTrue h2 => isTrue (hk ▸ hv ▸ h2 ▸ rfl)
        | isFalse h2 => isFalse (fun hh => h2 (List.cons.inj hh).2)
      | isFalse hv => isFalse (fun hh => hv (congrArg Prod.snd (List.cons.inj hh).1))
    | isFalse hk => isFalse (fun hh => hk (congrArg Prod.fst (List.cons.inj hh).1))

end

instance : DecidableEq PyVal := PyVal.decEq

/-- Error taxonomy of the spec, plus the Python dynamic-typing errors. -/
inductive DbcError where
  | UnexpectedToken (msg : String)
  | DuplicateEntity (msg : String)
  | UnresolvedReference (msg : String)
  | RuntimeError (msg : String)
  | NotImplemented (msg : String)
  | ValueError (msg : String)
  | TypeError (msg : String)
  | IndexError (msg : String)
  | UnboundLocalError (msg : String)
deriving DecidableEq, Repr

/-- Decidable equality of `Except` results, for settling concrete runs. -/
instance {ε α : Type} [DecidableEq ε] [DecidableEq α] : DecidableEq (Except ε α) := fun x y =>
  match x, y with
  | .ok a, .ok b =>
    match decEq a b with
    | isTrue h => isTrue (h ▸ rfl)
    | isFalse h => isFalse (fun hh => h (Except.ok.inj hh))
  | .error a, .error b =>
    match decEq a b with
    | isTrue h => isTrue (h ▸ rfl)
    | isFalse h => isFalse (fun hh => h (Except.error.inj hh))
  | .ok _, .error _ => isFalse (fun h => nomatch h)
  | .error _, .ok _ => isFalse (fun h => nomatch h)

/-- Python `len(...)` on a parse-tree value (`len(None)` raises `TypeError`;
we only ever call it where the source does, on strings and lists). -/
def PyVal.length : PyVal → Nat
  | .none => 0
  | .str s => s.length
  | .list xs => xs.length
  | .dict entries => entries.length

/-- Python positional indexing `v[i]`: on a string it yields the one-character
string, on a list the element; out of range raises `IndexError`; `None` and
dict nodes are never indexed positionally by the source. -/
def PyVal.get : PyVal → Nat → Except DbcError PyVal
  | .str s, i =>
    match s.data.get? i with
    | some c => .ok (.str (String.mk [c]))
    | Option.none => .error (.IndexError "string index out of range")
  | .list xs, i =>
    match xs.get? i with
    | some x => .ok x
    | Option.none => .error (.IndexError "list index out of range")
  | .none, _ => .error (.TypeError "NoneType is not subscriptable")
  | .dict _, _ => .error (.TypeError "positional index on AST node")

/-- Python iteration `for x in v`: a string iterates its characters (each a
one-character string), a list its elements; iterating `None` raises
`TypeError`. -/
def PyVal.items : PyVal → Except DbcError (List PyVal)
  | .str s => .ok (s.data.map (fun c => .str (String.mk [c])))
  | .list xs => .ok xs
  | .none => .error (.TypeError "NoneType is not iterable")
  | .dict _ => .error (.TypeError "iteration over AST node")

/-- Keyed access `v["k"]` on a tatsu AST node: a missing key yields `None`
(tatsu AST semantics); keyed access on a non-dict raises. -/
def PyVal.attrE : PyVal → String → Except DbcError PyVal
  | .dict entries, k =>
    match entries.find? (fun e => e.1 = k) with
    | some e => .ok e.2
    | Option.none => .ok .none
  | _, _ => .error (.TypeError "keyed access on non-AST value")

/-- The value as a Python `str`, where the source uses it as a string (dict
keys, equality with string literals); a non-string raises `TypeError`. -/
def PyVal.asStr : PyVal → Except DbcError String
  | .str s => .ok s
  | _ => .error (.TypeError "expected str")

/-- Python truth-value test `not value` used by `read_float_with_default`:
`None`, the empty string and the empty list are falsy. -/
def PyVal.falsy : PyVal → Bool
  | .none => true
  | .str s => s.isEmpty
  | .list xs => xs.isEmpty
  | .dict entries => entries.isEmpty

/-- Decimal digit test for the numeric readers. -/
def isDigitChar (c : Char) : Bool := 48 ≤ c.toNat ∧ c.toNat ≤ 57

/-- Value of a list of decimal digits, most significant first. -/
def natOfDigits (cs : List Char) : Nat :=
  cs.foldl (fun a c => a * 10 + (c.toNat - 48)) 0

/-- Python `int(s)` on a DBC numeric token: optional sign followed by one or
more decimal digits; anything else raises `ValueError`.  (Python's `int`
also strips whitespace and accepts underscores; DBC tokens contain
neither.) -/
def pyIntOfString (s : String) : Option Int :=
  match s.data with
  | '+' :: rest => if rest ≠ [] ∧ rest.all isDigitChar then some (natOfDigits rest) else Option.none
  | '-' :: rest => if rest ≠ [] ∧ rest.all isDigitChar then some (-(natOfDigits rest : Int)) else Option.none
  | cs => if cs ≠ [] ∧ cs.all isDigitChar then some (natOfDigits cs) else Option.none

/-- An IEEE-754 double of the source, modelled exactly as the decimal
rational `num / 10 ^ exp10` it was written as.  The representation is not
normalized; the source only ever stores these values, it never computes
with or compares them, so no claim observes the representation. -/
structure PyFloat where
  num : Int
  exp10 : Nat
deriving DecidableEq, Repr

/-- Python `float(s)` on a DBC numeric token: optional sign, digits with
optional fraction (at least one digit overall), optional exponent; anything
else raises `ValueError`.  (`inf`/`nan` spellings never occur in DBC files
and are not modelled.) -/
def pyFloatOfString (s : String) : Option PyFloat :=
  let sign : Int × List Char :=
    match s.data with
    | '+' :: r => (1, r)
    | '-' :: r => (-1, r)
    | r => (1, r)
  let (d1, rest1) := sign.2.span isDigitChar
  let fr : List Char × List Char :=
    match rest1 with
    | '.' :: r => r.span isDigitChar
    | r => ([], r)
  let (d2, rest2) := fr
  if d1.isEmpty ∧ d2.isEmpty then Option.none
  else
    let mant : Int := sign.1 * (natOfDigits (d1 ++ d2) : Int)
    match rest2 with
    | [] => some ⟨mant, d2.length⟩
    | e :: r =>
      if e = 'e' ∨ e = 'E' then
        let es : Bool × List Char :=
          match r with
          | '+' :: r2 => (true, r2)
          | '-' :: r2 => (false, r2)
          | r2 => (true, r2)
        let (ed, rest3) := es.2.span isDigitChar
        if ed.isEmpty ∨ ¬ rest3.isEmpty then Option.none
        else if es.1 then some ⟨mant * (10 : Int) ^ natOfDigits ed, d2.length⟩
        else some ⟨mant, d2.length + natOfDigits ed⟩
      else Option.none

example : pyIntOfString "123" = some 123 := by decide
example : pyIntOfString "-10" = some (-10) := by decide
example : pyIntOfString "" = Option.none := by decide
example : pyFloatOfString "1" = some ⟨1, 0⟩ := by decide
example : pyFloatOfString "-2.5" = some ⟨-25, 1⟩ := by decide
example : pyFloatOfString "1e2" = some ⟨100, 0⟩ := by decide
example : pyFloatOfString "1.5e-2" = some ⟨15, 3⟩ := by decide
example : pyFloatOfString "" = Option.none := by decide
example : pyFloatOfString "x" = Option.none := by decide

/-! ## Association lists: the embedding of Python's insertion-ordered dicts -/

/-- Lookup in an insertion-ordered dict (first, hence unique, matching key). -/
def alistLookup {K V : Type} [DecidableEq K] : List (K × V) → K → Option V
  | [], _ => Option.none
  | (k', v') :: t, k => if k' = k then some v' else alistLookup t k

/-- Python `k in d`. -/
def alistContains {K V : Type} [DecidableEq K] (l : List (K × V)) (k : K) : Bool :=
  (alistLookup l k).isSome

/-- Python `d[k] = v`: replace in place when the key is present (keeping its
position), append otherwise. -/
def alistSet {K V : Type} [DecidableEq K] : List (K × V) → K → V → List (K × V)
  | [], k, v => [(k, v)]
  | (k', v') :: t, k, v => if k' = k then (k, v) :: t else (k', v') :: alistSet t k v

/-! ## The object model (`parser_tatsu.py`, classes `Dbc*`) -/

/-- `DbcAttributeType` and its five concrete subclasses, embedded as the sum
type the spec itself recommends (`is_integer()`/`is_hex()`/… become
constructor tests). -/
inductive DbcAttributeType where
  | integer (min max : Int)
  | hex (min max : Int)
  | float (min max : PyFloat)
  | enum (labels : List String)
  | string
deriving DecidableEq, Repr

/-- `DbcAttributeObjectType`. -/
inductive DbcAttributeObjectType where
  | GLOBAL
  | NODE
  | MESSAGE
  | SIGNAL
  | ENVIRONMENT_VARIABLE
  | NODE_MESSAGE
  | NODE_SIGNAL
  | NODE_ENVIRONMENT_VARIABLE
deriving DecidableEq, Repr

/-- The dynamically-typed payload of a `DbcAttributeValue`: an `int`, a
`float` or a `str` depending on the schema's value type. -/
inductive DbcAttrScalar where
  | int (i : Int)
  | float (f : PyFloat)
  | str (s : String)
deriving DecidableEq, Repr

/-- `DbcAttribute` (an attribute schema).  The source stores `default` as a
`DbcAttributeValue` referring back to this very schema; we keep the
default's payload, which is all any accessor reads. -/
structure DbcAttribute where
  name : String
  value_type : DbcAttributeType
  object_type : DbcAttributeObjectType
  default : Option DbcAttrScalar
deriving DecidableEq, Repr

/-- `DbcAttributeValue`.  The source field `attribute` is a Lean keyword, so
it is embedded as `attribute_ref`. -/
structure DbcAttributeValue where
  name : String
  attribute_ref : DbcAttribute
  value : DbcAttrScalar
deriving DecidableEq, Repr

/-- `DbcNode`. -/
structure DbcNode where
  name : String
  description : String
  attributes : List (String × DbcAttributeValue)
deriving DecidableEq, Repr

/-- `DbcSignalValueType`. -/
inductive DbcSignalValueType where
  | UNSIGNED
  | SIGNED
  | FLOAT32
  | FLOAT64
deriving DecidableEq, Repr

/-- `DbcSignalByteOrder`. -/
inductive DbcSignalByteOrder where
  | LITTLE_ENDIAN
  | BIG_ENDIAN
deriving DecidableEq, Repr

/-- `DbcSignal`.  `factor`/`offset`/`minimum`/`maximum` come from
`read_float_with_default`, whose default for the last two is Python `None`,
hence the `Option`. -/
structure DbcSignal where
  name : String
  start_bit : Int
  size : Int
  byte_order : DbcSignalByteOrder
  value_type : DbcSignalValueType
  factor : Option PyFloat
  offset : Option PyFloat
  minimum : Option PyFloat
  maximum : Option PyFloat
  unit : String
  attributes : List (String × DbcAttributeValue)
  description : String
  value_descriptions : List (PyFloat × String)
deriving DecidableEq, Repr

/-- `DbcSignalGroup`. -/
structure DbcSignalGroup where
  name : String
  repetitions : Int
  signals : List DbcSignal
deriving DecidableEq, Repr

/-- `DbcMessage`.  `transmitter` is stored as the raw parsed token, exactly
as the source's constructor does. -/
structure DbcMessage where
  id : Int
  name : String
  size : Int
  description : String
  transmitter : String
  signals_by_name : List (String × DbcSignal)
  attributes : List (String × DbcAttributeValue)
  signal_groups : List DbcSignalGroup
deriving DecidableEq, Repr

/-- `DbcEnvironmentVariableType`. -/
inductive DbcEnvironmentVariableType where
  | INTEGER
  | FLOAT
  | STRING
  | DATA
deriving DecidableEq, Repr

/-- `DbcEnvironmentVariableAccessType`. -/
inductive DbcEnvironmentVariableAccessType where
  | UNRESTRICTED
  | READ
  | WRITE
  | READ_WRITE
deriving DecidableEq, Repr

/-- `DbcEnvironmentVariable`.  `access_nodes` holds copies of the nodes the
source stores by reference; no claim in scope mutates a node after it is
added to an access list. -/
structure DbcEnvironmentVariable where
  name : String
  type : DbcEnvironmentVariableType
  minimum : Option PyFloat
  maximum : Option PyFloat
  unit : String
  init_value : Option PyFloat
  id : Int
  access_type : DbcEnvironmentVariableAccessType
  access_nodes : List DbcNode
  description : String
  attributes : List (String × DbcAttributeValue)
  value_descriptions : List (PyFloat × String)
  data_size : Int
deriving DecidableEq, Repr

/-- `DbcValueTable`: the source keeps `values: Dict[str, float]` keyed by
the LABEL (`self.values[label] = value`), not an ordered pair list. -/
structure DbcValueTable where
  name : String
  values : List (String × PyFloat)
deriving DecidableEq, Repr

/-- `DbcFile`. -/
structure DbcFile where
  version : String
  nodes_by_name : List (String × DbcNode)
  messages_by_id : List (Int × DbcMessage)
  environment_variables_by_name : List (String × DbcEnvironmentVariable)
  attribute_definitions : List (String × DbcAttribute)
  attribute_values : List (String × DbcAttributeValue)
  value_tables_by_name : List (String × DbcValueTable)
deriving DecidableEq, Repr

/-- The `DbcFile()` constructor. -/
def DbcFile.empty : DbcFile :=
  ⟨"N/A", [], [], [], [], [], []⟩

/-! ### Methods of the object model classes.  Methods that raise become
`Except`; in-place mutation of an owned entity becomes replacement of its
entry in the owning index. -/

/-- `DbcNode.add_attribute`: raises on a duplicate attribute name. -/
def DbcNode.add_attribute (node : DbcNode) (attr : DbcAttributeValue) : Except DbcError DbcNode :=
  if alistContains node.attributes attr.name then
    .error (.DuplicateEntity attr.name)
  else
    .ok { node with attributes := node.attributes ++ [(attr.name, attr)] }

/-- `DbcNode.has_attribute`. -/
def DbcNode.has_attribute (node : DbcNode) (name : String) : Bool :=
  alistContains node.attributes name

/-- `DbcNode.get_attribute` (`KeyError` on a missing name). -/
def DbcNode.get_attribute (node : DbcNode) (name : String) : Except DbcError DbcAttributeValue :=
  match alistLookup node.attributes name with
  | some a => .ok a
  | Option.none => .error (.UnresolvedReference name)

/-- `DbcSignal.add_attribute`: raises on a duplicate attribute name. -/
def DbcSignal.add_attribute (sig : DbcSignal) (attr : DbcAttributeValue) : Except DbcError DbcSignal :=
  if alistContains sig.attributes attr.name then
    .error (.DuplicateEntity attr.name)
  else
    .ok { sig with attributes := sig.attributes ++ [(attr.name, attr)] }

/-- `DbcSignal.has_attribute`. -/
def DbcSignal.has_attribute (sig : DbcSignal) (name : String) : Bool :=
  alistContains sig.attributes name

/-- `DbcSignal.get_attribute`. -/
def DbcSignal.get_attribute (sig : DbcSignal) (name : String) : Except DbcError DbcAttributeValue :=
  match alistLookup sig.attributes name with
  | some a => .ok a
  | Option.none => .error (.UnresolvedReference name)

/-- `DbcSignal.add_value_description`. -/
def DbcSignal.add_value_description (sig : DbcSignal) (val : PyFloat) (label : String) : DbcSignal :=
  { sig with value_descriptions := sig.value_descriptions ++ [(val, label)] }

/-- `DbcSignalGroup._add_signal`. -/
def DbcSignalGroup.add_signal (sg : DbcSignalGroup) (sig : DbcSignal) : DbcSignalGroup :=
  { sg with signals := sg.signals ++ [sig] }

/-- `DbcMessage.add_attribute`: raises on a duplicate attribute name. -/
def DbcMessage.add_attribute (msg : DbcMessage) (attr : DbcAttributeValue) : Except DbcError DbcMessage :=
  if alistContains msg.attributes attr.name then
    .error (.DuplicateEntity attr.name)
  else
    .ok { msg with attributes := msg.attributes ++ [(attr.name, attr)] }

/-- `DbcMessage._add_signal`: raises on a duplicate signal name. -/
def DbcMessage.add_signal (msg : DbcMessage) (sig : DbcSignal) : Except DbcError DbcMessage :=
  if alistContains msg.signals_by_name sig.name then
    .error (.DuplicateEntity sig.name)
  else
    .ok { msg with signals_by_name := msg.signals_by_name ++ [(sig.name, sig)] }

/-- `DbcMessage._add_signal_group`. -/
def DbcMessage.add_signal_group (msg : DbcMessage) (sg : DbcSignalGroup) : DbcMessage :=
  { msg with signal_groups := msg.signal_groups ++ [sg] }

/-- `DbcMessage.get_signal` (`KeyError` on a missing name). -/
def DbcMessage.get_signal (msg : DbcMessage) (name : String) : Except DbcError DbcSignal :=
  match alistLookup msg.signals_by_name name with
  | some s => .ok s
  | Option.none => .error (.UnresolvedReference name)

/-- In-place mutation `sig.<field> = …` of a signal owned by a message. -/
def DbcMessage.set_signal (msg : DbcMessage) (name : String) (sig : DbcSignal) : DbcMessage :=
  { msg with signals_by_name := alistSet msg.signals_by_name name sig }

/-- `DbcEnvironmentVariable._add_access_node`. -/
def DbcEnvironmentVariable.add_access_node (ev : DbcEnvironmentVariable) (node : DbcNode) : DbcEnvironmentVariable :=
  { ev with access_nodes := ev.access_nodes ++ [node] }

/-- `DbcEnvironmentVariable.add_attribute`: raises on a duplicate name. -/
def DbcEnvironmentVariable.add_attribute (ev : DbcEnvironmentVariable) (attr : DbcAttributeValue) : Except DbcError DbcEnvironmentVariable :=
  if alistContains ev.attributes attr.name then
    .error (.DuplicateEntity attr.name)
  else
    .ok { ev with attributes := ev.attributes ++ [(attr.name, attr)] }

/-- `DbcEnvironmentVariable.add_value_description`. -/
def DbcEnvironmentVariable.add_value_description (ev : DbcEnvironmentVariable) (val : PyFloat) (label : String) : DbcEnvironmentVariable :=
  { ev with value_descriptions := ev.value_descriptions ++ [(val, label)] }

/-- `DbcValueTable._add_value`: the label is the dict key, a duplicate label
raises `RuntimeError` ("Label … already in value table"). -/
def DbcValueTable.add_value (vt : DbcValueTable) (value : PyFloat) (label : String) : Except DbcError DbcValueTable :=
  if alistContains vt.values label then
    .error (.DuplicateEntity label)
  else
    .ok { vt with values := vt.values ++ [(label, value)] }

/-- `DbcFile._add_message`. -/
def DbcFile.add_message (dbc : DbcFile) (message : DbcMessage) : Except DbcError DbcFile :=
  if alistContains dbc.messages_by_id message.id then
    .error (.DuplicateEntity message.name)
  else
    .ok { dbc with messages_by_id := dbc.messages_by_id ++ [(message.id, message)] }

/-- `DbcFile._add_value_table`. -/
def DbcFile.add_value_table (dbc : DbcFile) (vtable : DbcValueTable) : Except DbcError DbcFile :=
  if alistContains dbc.value_tables_by_name vtable.name then
    .error (.DuplicateEntity vtable.name)
  else
    .ok { dbc with value_tables_by_name := dbc.value_tables_by_name ++ [(vtable.name, vtable)] }

/-- `DbcFile._add_environment_variable`. -/
def DbcFile.add_environment_variable (dbc : DbcFile) (ev : DbcEnvironmentVariable) : Except DbcError DbcFile :=
  if alistContains dbc.environment_variables_by_name ev.name then
    .error (.DuplicateEntity ev.name)
  else
    .ok { dbc with environment_variables_by_name := dbc.environment_variables_by_name ++ [(ev.name, ev)] }

/-- `DbcFile._add_node`: a duplicate node name raises
`RuntimeError` ("Node … already in Dbc"), the spec's `DuplicateEntity`. -/
def DbcFile.add_node (dbc : DbcFile) (node : DbcNode) : Except DbcError DbcFile :=
  if alistContains dbc.nodes_by_name node.name then
    .error (.DuplicateEntity node.name)
  else
    .ok { dbc with nodes_by_name := dbc.nodes_by_name ++ [(node.name, node)] }

/-- `DbcFile._add_attribute_definition`. -/
def DbcFile.add_attribute_definition (dbc : DbcFile) (attr : DbcAttribute) : Except DbcError DbcFile :=
  if alistContains dbc.attribute_definitions attr.name then
    .error (.DuplicateEntity attr.name)
  else
    .ok { dbc with attribute_definitions := dbc.attribute_definitions ++ [(attr.name, attr)] }

/-- `DbcFile.has_attribute_definition`. -/
def DbcFile.has_attribute_definition (dbc : DbcFile) (name : String) : Bool :=
  alistContains dbc.attribute_definitions name

/-- `DbcFile.get_attribute_definition` (`KeyError` on a missing name). -/
def DbcFile.get_attribute_definition (dbc : DbcFile) (name : String) : Except DbcError DbcAttribute :=
  match alistLookup dbc.attribute_definitions name with
  | some a => .ok a
  | Option.none => .error (.UnresolvedReference name)

/-- `DbcFile.add_attribute_value`: raises on a duplicate name. -/
def DbcFile.add_attribute_value (dbc : DbcFile) (attr : DbcAttributeValue) : Except DbcError DbcFile :=
  if alistContains dbc.attribute_values attr.name then
    .error (.DuplicateEntity attr.name)
  else
    .ok { dbc with attribute_values := dbc.attribute_values ++ [(attr.name, attr)] }

/-- `DbcFile.has_attribute_value`. -/
def DbcFile.has_attribute_value (dbc : DbcFile) (name : String) : Bool :=
  alistContains dbc.attribute_values name

/-- `DbcFile.get_attribute_value`. -/
def DbcFile.get_attribute_value (dbc : DbcFile) (name : String) : Except DbcError DbcAttributeValue :=
  match alistLookup dbc.attribute_values name with
  | some a => .ok a
  | Option.none => .error (.UnresolvedReference name)

/-- `DbcFile.has_node`. -/
def DbcFile.has_node (dbc : DbcFile) (name : String) : Bool :=
  alistContains dbc.nodes_by_name name

/-- `DbcFile.get_node` (`KeyError` on a missing name). -/
def DbcFile.get_node (dbc : DbcFile) (name : String) : Except DbcError DbcNode :=
  match alistLookup dbc.nodes_by_name name with
  | some n => .ok n
  | Option.none => .error (.UnresolvedReference name)

/-- `DbcFile.has_message`. -/
def DbcFile.has_message (dbc : DbcFile) (id : Int) : Bool :=
  alistContains dbc.messages_by_id id

/-- `DbcFile.get_message` (`KeyError` on a missing id). -/
def DbcFile.get_message (dbc : DbcFile) (id : Int) : Except DbcError DbcMessage :=
  match alistLookup dbc.messages_by_id id with
  | some m => .ok m
  | Option.none => .error (.UnresolvedReference (toString id))

/-- `DbcFile.has_value_table`. -/
def DbcFile.has_value_table (dbc : DbcFile) (name : String) : Bool :=
  alistContains dbc.value_tables_by_name name

/-- `DbcFile.get_value_table`. -/
def DbcFile.get_value_table (dbc : DbcFile) (name : String) : Except DbcError DbcValueTable :=
  match alistLookup dbc.value_tables_by_name name with
  | some v => .ok v
  | Option.none => .error (.UnresolvedReference name)

/-- `DbcFile.get_environment_variable` (`KeyError` on a missing name). -/
def DbcFile.get_environment_variable (dbc : DbcFile) (name : String) : Except DbcError DbcEnvironmentVariable :=
  match alistLookup dbc.environment_variables_by_name name with
  | some e => .ok e
  | Option.none => .error (.UnresolvedReference name)

/-- In-place mutation of a node owned by the file. -/
def DbcFile.set_node (dbc : DbcFile) (name : String) (node : DbcNode) : DbcFile :=
  { dbc with nodes_by_name := alistSet dbc.nodes_by_name name node }

/-- In-place mutation of a message owned by the file. -/
def DbcFile.set_message (dbc : DbcFile) (id : Int) (msg : DbcMessage) : DbcFile :=
  { dbc with messages_by_id := alistSet dbc.messages_by_id id msg }

/-- In-place mutation of an environment variable owned by the file. -/
def DbcFile.set_environment_variable (dbc : DbcFile) (name : String) (ev : DbcEnvironmentVariable) : DbcFile :=
  { dbc with environment_variables_by_name := alistSet dbc.environment_variables_by_name name ev }

/-- In-place mutation of an attribute definition owned by the file. -/
def DbcFile.set_attribute_definition (dbc : DbcFile) (name : String) (attr : DbcAttribute) : DbcFile :=
  { dbc with attribute_definitions := alistSet dbc.attribute_definitions name attr }

/-! ## Lexical primitives (`read_*` functions of the source) -/

/-- `read_char_string`: the source unconditionally inspects `value[0]`, so
the empty string raises `IndexError`; when the first and last characters are
both `"` (for a one-character `"` they are the same character) it returns
`value[1:-1]`, otherwise the string unchanged. -/
def read_char_string (value : String) : Except DbcError String :=
  match value.data with
  | [] => .error (.IndexError "string index out of range")
  | c :: cs =>
    if c = '"' ∧ (c :: cs).getLast? = some '"' then
      .ok (String.mk cs.dropLast)
    else
      .ok value

mutual

/-- `join_parsed_number`: concatenate all string leaves of a numeric parse
node.  Iterating a Python string yields its characters, so a string joins to
itself; iterating `None` or an AST node raises `TypeError`. -/
def join_parsed_number : PyVal → Except DbcError String
  | .str s => .ok s
  | .list xs => join_parsed_number_list xs
  | .none => .error (.TypeError "NoneType is not iterable")
  | .dict _ => .error (.TypeError "iteration over AST node")

/-- The element loop of `join_parsed_number`. -/
def join_parsed_number_list : List PyVal → Except DbcError String
  | [] => .ok ""
  | x :: xs => do
    let h ← join_parsed_number x
    let t ← join_parsed_number_list xs
    .ok (h ++ t)

end

/-- `read_int`: join the numeric fragments, then Python `int(...)`. -/
def read_int (value : PyVal) : Except DbcError Int := do
  let num_str ← join_parsed_number value
  match pyIntOfString num_str with
  | some n => .ok n
  | Option.none => .error (.ValueError num_str)

/-- `read_float`: join the numeric fragments, then Python `float(...)`. -/
def read_float (value : PyVal) : Except DbcError PyFloat := do
  let num_str ← join_parsed_number value
  match pyFloatOfString num_str with
  | some f => .ok f
  | Option.none => .error (.ValueError num_str)

/-- `read_float_with_default`: a falsy value (absent/empty) yields the
default, which the source also passes as `None`. -/
def read_float_with_default (value : PyVal) (dflt : Option PyFloat) : Except DbcError (Option PyFloat) :=
  if value.falsy then .ok dflt
  else do
    let f ← read_float value
    .ok (some f)

/-- Python `int(v)` applied directly to a parse value (used by the
attribute readers, without fragment joining). -/
def pyInt (v : PyVal) : Except DbcError Int := do
  let s ← v.asStr
  match pyIntOfString s with
  | some n => .ok n
  | Option.none => .error (.ValueError s)

/-- Python `float(v)` applied directly to a parse value. -/
def pyFloat (v : PyVal) : Except DbcError PyFloat := do
  let s ← v.asStr
  match pyFloatOfString s with
  | some f => .ok f
  | Option.none => .error (.ValueError s)

/-- `read_env_var_type`: token `0`/`1`/`2` → INTEGER/FLOAT/STRING. -/
def read_env_var_type (value : PyVal) : Except DbcError DbcEnvironmentVariableType :=
  if value = .str "0" then .ok .INTEGER
  else if value = .str "1" then .ok .FLOAT
  else if value = .str "2" then .ok .STRING
  else .error (.UnexpectedToken "evar type")

/-- `read_env_var_access_type`. -/
def read_env_var_access_type (value : PyVal) : Except DbcError DbcEnvironmentVariableAccessType :=
  if value = .str "DUMMY_NODE_VECTOR0" then .ok .UNRESTRICTED
  else if value = .str "DUMMY_NODE_VECTOR1" then .ok .READ
  else if value = .str "DUMMY_NODE_VECTOR2" then .ok .WRITE
  else if value = .str "DUMMY_NODE_VECTOR3" then .ok .READ_WRITE
  else if value = .str "DUMMY_NODE_VECTOR8000" then .ok .UNRESTRICTED
  else .error (.UnexpectedToken "evar access type")

/-- `read_signal_value_type`: `+` → UNSIGNED, `-` → SIGNED. -/
def read_signal_value_type (ast : PyVal) : Except DbcError DbcSignalValueType :=
  if ast = .str "+" then .ok .UNSIGNED
  else if ast = .str "-" then .ok .SIGNED
  else .error (.UnexpectedToken "signal value type")

/-- `read_byte_order`, exactly as the source writes it: token `"0"` decodes
to `LITTLE_ENDIAN` and token `"1"` to `BIG_ENDIAN`. -/
def read_byte_order (ast : PyVal) : Except DbcError DbcSignalByteOrder :=
  if ast = .str "0" then .ok .LITTLE_ENDIAN
  else if ast = .str "1" then .ok .BIG_ENDIAN
  else .error (.UnexpectedToken "signal byte_order")

/-- `read_extended_value_type`: `0` keeps the signal's current value type,
`1` → FLOAT32, `2` → FLOAT64, anything else is an unexpected token. -/
def read_extended_value_type (ast : PyVal) (sig : DbcSignal) : Except DbcError DbcSignalValueType :=
  if ast = .str "0" then .ok sig.value_type
  else if ast = .str "1" then .ok .FLOAT32
  else if ast = .str "2" then .ok .FLOAT64
  else .error (.UnexpectedToken "extended value type")

/-- `read_attribute_value_type`: a three-element node is `INT`/`HEX`/`FLOAT`
with bounds or `ENUM` with labels; the bare token `STRING` is the string
type; anything else hits the source's `NotImplementedError`. -/
def read_attribute_value_type (ast : PyVal) : Except DbcError DbcAttributeType :=
  if ast.length = 3 then do
    let attr_type ← ast.get 0
    if attr_type = .str "INT" then do
      let mn ← pyInt (← ast.get 1)
      let mx ← pyInt (← ast.get 2)
      .ok (.integer mn mx)
    else if attr_type = .str "HEX" then do
      let mn ← pyInt (← ast.get 1)
      let mx ← pyInt (← ast.get 2)
      .ok (.hex mn mx)
    else if attr_type = .str "FLOAT" then do
      let mn ← pyFloat (← ast.get 1)
      let mx ← pyFloat (← ast.get 2)
      .ok (.float mn mx)
    else if attr_type = .str "ENUM" then do
      let first ← (← ast.get 1).asStr
      let first_label ← read_char_string first
      let more_labels ← (← ast.get 2).items
      let labels ← more_labels.foldlM (fun acc more_label => do
        let l ← (← more_label.get 1).asStr
        let label ← read_char_string l
        pure (acc ++ [label])) [first_label]
      .ok (.enum labels)
    else .error (.NotImplemented "TODO")
  else if ast = .str "STRING" then .ok .string
  else .error (.NotImplemented "TODO")

/-- `read_attribute_value`: decode the payload according to the schema's
value type (INT/HEX → `int(...)`, FLOAT → `float(...)`, STRING/ENUM →
unquoted string). -/
def read_attribute_value (ast : PyVal) (attr : DbcAttribute) : Except DbcError DbcAttributeValue :=
  match attr.value_type with
  | .integer _ _ => do
    let v ← pyInt ast
    .ok ⟨attr.name, attr, .int v⟩
  | .hex _ _ => do
    let v ← pyInt ast
    .ok ⟨attr.name, attr, .int v⟩
  | .float _ _ => do
    let v ← pyFloat ast
    .ok ⟨attr.name, attr, .float v⟩
  | .string => do
    let s ← ast.asStr
    let v ← read_char_string s
    .ok ⟨attr.name, attr, .str v⟩
  | .enum _ => do
    let s ← ast.asStr
    let v ← read_char_string s
    .ok ⟨attr.name, attr, .str v⟩

/-! ## The semantic binder (`DbcFactory`).  Each source method
`_process_xxx` is embedded as `process_xxx` (Lean declarations cannot start
with an underscore at top level with the conventions used here); the
for-loops become structural recursions threading the `DbcFile`. -/

namespace DbcFactory

/-- `DbcFactory.create_node`. -/
def create_node (parsed_node : PyVal) : Except DbcError DbcNode := do
  let name ← parsed_node.asStr
  .ok ⟨name, "N/A", []⟩

/-- `DbcFactory.create_signal`. -/
def create_signal (parsed_signal : PyVal) : Except DbcError DbcSignal := do
  let signal_name ← (← parsed_signal.attrE "signal_name").asStr
  let start_bit ← read_int (← parsed_signal.attrE "start_bit")
  let signal_size ← read_int (← parsed_signal.attrE "signal_size")
  let byte_order ← read_byte_order (← parsed_signal.attrE "byte_order")
  let value_type ← read_signal_value_type (← parsed_signal.attrE "value_type")
  let factor ← read_float_with_default (← parsed_signal.attrE "factor") (some ⟨1, 0⟩)
  let offset ← read_float_with_default (← parsed_signal.attrE "offset") (some ⟨0, 0⟩)
  let minimum ← read_float_with_default (← parsed_signal.attrE "minimum") Option.none
  let maximum ← read_float_with_default (← parsed_signal.attrE "maximum") Option.none
  let unit ← read_char_string (← (← parsed_signal.attrE "unit").asStr)
  .ok ⟨signal_name, start_bit, signal_size, byte_order, value_type,
       factor, offset, minimum, maximum, unit, [], "N/A", []⟩

/-- The signal loop of `DbcFactory.create_message`. -/
def create_message_signals (message : DbcMessage) : List PyVal → Except DbcError DbcMessage
  | [] => .ok message
  | parsed_signal :: rest => do
    let signal ← create_signal parsed_signal
    let message ← message.add_signal signal
    create_message_signals message rest

/-- `DbcFactory.create_message`. -/
def create_message (parsed_message : PyVal) : Except DbcError DbcMessage := do
  let message_id ← read_int (← parsed_message.attrE "message_id")
  let message_name ← (← parsed_message.attrE "message_name").asStr
  let message_size ← read_int (← parsed_message.attrE "message_size")
  let transmitter ← (← parsed_message.attrE "transmitter").asStr
  let message : DbcMessage := ⟨message_id, message_name, message_size, "N/A", transmitter, [], [], []⟩
  let parsed_signals ← (← parsed_message.attrE "signals").items
  create_message_signals message parsed_signals

/-- The access-node loop of `DbcFactory.create_environment_variable`: a
non-sentinel name is looked up in `nodes_by_name`, raising `KeyError`
(`UnresolvedReference`) when the node was never declared. -/
def create_environment_variable_nodes (ev : DbcEnvironmentVariable)
    (nodes_by_name : List (String × DbcNode)) : List PyVal → Except DbcError DbcEnvironmentVariable
  | [] => .ok ev
  | ev_anode :: rest =>
    if ev_anode = .str "Vector__XXX" then
      create_environment_variable_nodes ev nodes_by_name rest
    else do
      let nm ← ev_anode.asStr
      match alistLookup nodes_by_name nm with
      | some anode => create_environment_variable_nodes (ev.add_access_node anode) nodes_by_name rest
      | Option.none => .error (.UnresolvedReference nm)

/-- `DbcFactory.create_environment_variable` (positional parse-tree
accesses `parsed_ev[1]`, `[3]`, `[5]`, `[7]`, `[9]`, `[10]`, `[11]`,
`[12]`, `[13]`, `[14]` exactly as the source). -/
def create_environment_variable (parsed_ev : PyVal)
    (nodes_by_name : List (String × DbcNode)) : Except DbcError DbcEnvironmentVariable := do
  let ev_name ← (← parsed_ev.get 1).asStr
  let ev_type ← read_env_var_type (← parsed_ev.get 3)
  let ev_min ← read_float_with_default (← parsed_ev.get 5) Option.none
  let ev_max ← read_float_with_default (← parsed_ev.get 7) Option.none
  let ev_unit ← read_char_string (← (← parsed_ev.get 9).asStr)
  let ev_ival ← read_float_with_default (← parsed_ev.get 10) Option.none
  let ev_id ← read_int (← parsed_ev.get 11)
  let ev_atype ← read_env_var_access_type (← parsed_ev.get 12)
  let ev : DbcEnvironmentVariable :=
    ⟨ev_name, ev_type, ev_min, ev_max, ev_unit, ev_ival, ev_id, ev_atype, [], "N/A", [], [], 0⟩
  let ev_anode ← parsed_ev.get 13
  let ev ←
    if ev_anode = .str "Vector__XXX" then pure ev
    else do
      let nm ← ev_anode.asStr
      match alistLookup nodes_by_name nm with
      | some anode => pure (ev.add_access_node anode)
      | Option.none => .error (.UnresolvedReference nm)
  let ev_anodes ← (← parsed_ev.get 14).items
  create_environment_variable_nodes ev nodes_by_name ev_anodes

/-- One comment of `DbcFactory._process_comments`, dispatched on the token
length exactly as the source: 3 = global (overrides `version`!), 5 =
`BU_`/`BO_`/`EV_` description, 6 = `SG_` description. -/
def process_comment (dbc : DbcFile) (comment : PyVal) : Except DbcError DbcFile :=
  if comment.length = 3 then do
    let s ← (← comment.get 1).asStr
    let v ← read_char_string s
    .ok { dbc with version := v }
  else if comment.length = 5 then do
    let object_type ← comment.get 1
    if object_type = .str "BU_" then do
      let node_name ← (← comment.get 2).asStr
      let node ← dbc.get_node node_name
      let d ← read_char_string (← (← comment.get 3).asStr)
      .ok (dbc.set_node node_name { node with description := d })
    else if object_type = .str "BO_" then do
      let msg_id ← read_int (← comment.get 2)
      let msg ← dbc.get_message msg_id
      let d ← read_char_string (← (← comment.get 3).asStr)
      .ok (dbc.set_message msg_id { msg with description := d })
    else if object_type = .str "EV_" then do
      let ev_name ← (← comment.get 2).asStr
      let ev ← dbc.get_environment_variable ev_name
      let d ← read_char_string (← (← comment.get 3).asStr)
      .ok (dbc.set_environment_variable ev_name { ev with description := d })
    else .error (.RuntimeError "Unexpected object type in comment")
  else if comment.length = 6 then do
    let msg_id ← read_int (← comment.get 2)
    let msg ← dbc.get_message msg_id
    let signal_name ← (← comment.get 3).asStr
    let signal ← msg.get_signal signal_name
    let d ← read_char_string (← (← comment.get 4).asStr)
    .ok (dbc.set_message msg_id (msg.set_signal signal_name { signal with description := d }))
  else .error (.RuntimeError "Unexpected token length in comment")

/-- The comment loop of `DbcFactory._process_comments`. -/
def process_comments_list (dbc : DbcFile) : List PyVal → Except DbcError DbcFile
  | [] => .ok dbc
  | comment :: rest => do
    let dbc ← process_comment dbc comment
    process_comments_list dbc rest

/-- `DbcFactory._process_comments`. -/
def process_comments (ast : PyVal) (dbc : DbcFile) : Except DbcError DbcFile := do
  let comments ← (← ast.attrE "comments").items
  process_comments_list dbc comments

/-- The node loop of `DbcFactory._process_nodes`. -/
def process_nodes_list (dbc : DbcFile) : List PyVal → Except DbcError DbcFile
  | [] => .ok dbc
  | node_name :: rest => do
    let node ← create_node node_name
    let dbc ← dbc.add_node node
    process_nodes_list dbc rest

/-- `DbcFactory._process_nodes`. -/
def process_nodes (ast : PyVal) (dbc : DbcFile) : Except DbcError DbcFile := do
  let nodes ← ast.attrE "nodes"
  let node_names ← (← nodes.attrE "node_names").items
  process_nodes_list dbc node_names

/-- The message loop of `DbcFactory._process_messages`. -/
def process_messages_list (dbc : DbcFile) : List PyVal → Except DbcError DbcFile
  | [] => .ok dbc
  | message :: rest => do
    let frame ← create_message message
    let dbc ← dbc.add_message frame
    process_messages_list dbc rest

/-- `DbcFactory._process_messages`. -/
def process_messages (ast : PyVal) (dbc : DbcFile) : Except DbcError DbcFile := do
  let messages ← (← ast.attrE "messages").items
  process_messages_list dbc messages

/-- The loop of `DbcFactory._process_environment_variables`. -/
def process_environment_variables_list (dbc : DbcFile) : List PyVal → Except DbcError DbcFile
  | [] => .ok dbc
  | ev :: rest => do
    let evar ← create_environment_variable ev dbc.nodes_by_name
    let dbc ← dbc.add_environment_variable evar
    process_environment_variables_list dbc rest

/-- `DbcFactory._process_environment_variables`. -/
def process_environment_variables (ast : PyVal) (dbc : DbcFile) : Except DbcError DbcFile := do
  let evs ← (← ast.attrE "environment_variables").items
  process_environment_variables_list dbc evs

/-- The loop of `DbcFactory._process_environment_variables_data`: resolve
the named environment variable (unknown ⇒ `UnresolvedReference`), then
promote its type to `DATA` and store `data_size`. -/
def process_environment_variables_data_list (dbc : DbcFile) : List PyVal → Except DbcError DbcFile
  | [] => .ok dbc
  | evd :: rest => do
    let ev_name ← (← evd.get 1).asStr
    let ev ← dbc.get_environment_variable ev_name
    let data_size ← read_int (← evd.get 3)
    let dbc := dbc.set_environment_variable ev_name { ev with type := .DATA, data_size := data_size }
    process_environment_variables_data_list dbc rest

/-- `DbcFactory._process_environment_variables_data`. -/
def process_environment_variables_data (ast : PyVal) (dbc : DbcFile) : Except DbcError DbcFile := do
  let ev_data ← (← ast.attrE "environment_variables_data").items
  process_environment_variables_data_list dbc ev_data

/-- One statement of the `SIG_VALTYPE_` pass: any other leading token is
silently skipped (the source has no `else`). -/
def process_signal_type_ref (dbc : DbcFile) (st : PyVal) : Except DbcError DbcFile := do
  let token ← st.get 0
  if token = .str "SIG_VALTYPE_" then do
    let msg_id ← read_int (← st.get 1)
    let msg ← dbc.get_message msg_id
    let sig_name ← (← st.get 2).asStr
    let sig ← msg.get_signal sig_name
    let stype ← read_extended_value_type (← st.get 4) sig
    .ok (dbc.set_message msg_id (msg.set_signal sig_name { sig with value_type := stype }))
  else .ok dbc

/-- The loop of `DbcFactory._process_signal_type_refs`. -/
def process_signal_type_refs_list (dbc : DbcFile) : List PyVal → Except DbcError DbcFile
  | [] => .ok dbc
  | st :: rest => do
    let dbc ← process_signal_type_ref dbc st
    process_signal_type_refs_list dbc rest

/-- `DbcFactory._process_signal_type_refs`. -/
def process_signal_type_refs (ast : PyVal) (dbc : DbcFile) : Except DbcError DbcFile := do
  let sts ← (← ast.attrE "signal_type_refs").items
  process_signal_type_refs_list dbc sts

end DbcFactory

namespace DbcFactory

/-- The `otype` if-chain of `_process_attributes` for a length-5 attribute
definition: keyword and object-type token select the object class, any
other pairing raises. -/
def attribute_definition_object_type (attr_type object_type : PyVal) : Except DbcError DbcAttributeObjectType :=
  if attr_type = .str "BA_DEF_" ∧ object_type = .str "BU_" then .ok .NODE
  else if attr_type = .str "BA_DEF_" ∧ object_type = .str "BO_" then .ok .MESSAGE
  else if attr_type = .str "BA_DEF_" ∧ object_type = .str "SG_" then .ok .SIGNAL
  else if attr_type = .str "BA_DEF_" ∧ object_type = .str "EV_" then .ok .ENVIRONMENT_VARIABLE
  else if attr_type = .str "BA_DEF_REL_" ∧ object_type = .str "BU_BO_REL_" then .ok .NODE_MESSAGE
  else if attr_type = .str "BA_DEF_REL_" ∧ object_type = .str "BU_SG_REL_" then .ok .NODE_SIGNAL
  else if attr_type = .str "BA_DEF_REL_" ∧ object_type = .str "BU_EV_REL_" then .ok .NODE_ENVIRONMENT_VARIABLE
  else .error (.RuntimeError "Unexpected object for attribute definition")

/-- One `BA_DEF_`/`BA_DEF_REL_` statement of `DbcFactory._process_attributes`:
length 4 is the global form, length 5 carries an object-type token; any
other shape raises. -/
def process_attribute_definition (dbc : DbcFile) (ad : PyVal) : Except DbcError DbcFile := do
  let attr_type ← ad.get 0
  if attr_type = .str "BA_DEF_" ∧ ad.length = 4 then do
    let attribute_name ← (← (← ad.get 1).attrE "name").asStr
    let attribute_type ← read_attribute_value_type (← ad.get 2)
    dbc.add_attribute_definition ⟨attribute_name, attribute_type, .GLOBAL, Option.none⟩
  else if ad.length = 5 then do
    let object_type ← ad.get 1
    let attribute_name ← (← (← ad.get 2).attrE "name").asStr
    let attribute_type ← read_attribute_value_type (← ad.get 3)
    let otype ← attribute_definition_object_type attr_type object_type
    dbc.add_attribute_definition ⟨attribute_name, attribute_type, otype, Option.none⟩
  else .error (.RuntimeError "Unexpected token length in attribute_definition")

/-- One `BA_DEF_DEF_`/`BA_DEF_DEF_REL_` statement: resolve the schema and
store the decoded default on it. -/
def process_attribute_default (dbc : DbcFile) (ad : PyVal) : Except DbcError DbcFile := do
  let attribute_name ← (← (← ad.get 1).attrE "name").asStr
  let attr ← dbc.get_attribute_definition attribute_name
  let attribute_value ← read_attribute_value (← ad.get 2) attr
  .ok (dbc.set_attribute_definition attribute_name { attr with default := some attribute_value.value })

/-- One `BA_`/`BA_REL_` statement, dispatched on the leading token and the
token-list length exactly as the source.  The `BA_REL_` length-8
(`BU_BO_REL_`/`BU_EV_REL_`) and length-9 (`BU_SG_REL_`) branches perform
their lookups and decode the value, then print a warning and DISCARD it.
The Python local `node` is function-scoped and shared across loop
iterations: it is assigned only by the `BA_ … BU_`, `BA_REL_` length-6 and
length-8 branches, yet the length-9 warning f-string reads `node.name`, so
when no earlier iteration has bound it the print raises
`UnboundLocalError`.  That loop-carried local is threaded explicitly as
`node_local` (the print's output itself is not modelled, but the
evaluation of its arguments is). -/
def process_attribute_value (dbc : DbcFile) (node_local : Option DbcNode) (av : PyVal) :
    Except DbcError (DbcFile × Option DbcNode) := do
  let attr_type ← av.get 0
  if attr_type = .str "BA_" ∧ av.length = 4 then do
    let attr_name ← (← (← av.get 1).attrE "name").asStr
    let attr ← dbc.get_attribute_definition attr_name
    let attr_value ← read_attribute_value (← av.get 2) attr
    let dbc ← dbc.add_attribute_value attr_value
    .ok (dbc, node_local)
  else if attr_type = .str "BA_" ∧ av.length = 6 then do
    let attr_name ← (← (← av.get 1).attrE "name").asStr
    let object_type ← av.get 2
    let attr ← dbc.get_attribute_definition attr_name
    let attr_value ← read_attribute_value (← av.get 4) attr
    if object_type = .str "BU_" then do
      let node_name ← (← av.get 3).asStr
      let node ← dbc.get_node node_name
      let node ← node.add_attribute attr_value
      .ok (dbc.set_node node_name node, some node)
    else if object_type = .str "BO_" then do
      let msg_id ← read_int (← av.get 3)
      let msg ← dbc.get_message msg_id
      let msg ← msg.add_attribute attr_value
      .ok (dbc.set_message msg_id msg, node_local)
    else if object_type = .str "EV_" then do
      let ev_name ← (← av.get 3).asStr
      let ev ← dbc.get_environment_variable ev_name
      let ev ← ev.add_attribute attr_value
      .ok (dbc.set_environment_variable ev_name ev, node_local)
    else .error (.RuntimeError "Unexpected object for attribute value")
  else if attr_type = .str "BA_REL_" ∧ av.length = 6 then do
    let attr_name ← (← (← av.get 1).attrE "name").asStr
    let _object_type ← av.get 2
    let attr ← dbc.get_attribute_definition attr_name
    let node_name ← (← av.get 3).asStr
    let _node ← dbc.get_node node_name
    let _attr_value ← read_attribute_value (← av.get 4) attr
    .error (.NotImplemented "TODO")
  else if av.length = 7 then do
    let attr_name ← (← (← av.get 1).attrE "name").asStr
    let object_type ← av.get 2
    let attr ← dbc.get_attribute_definition attr_name
    let attr_value ← read_attribute_value (← av.get 5) attr
    if attr_type = .str "BA_" ∧ object_type = .str "SG_" then do
      let msg_id ← read_int (← av.get 3)
      let msg ← dbc.get_message msg_id
      let sig_name ← (← av.get 4).asStr
      let sig ← msg.get_signal sig_name
      let sig ← sig.add_attribute attr_value
      .ok (dbc.set_message msg_id (msg.set_signal sig_name sig), node_local)
    else .error (.RuntimeError "Unexpected object for attribute value")
  else if attr_type = .str "BA_REL_" ∧ av.length = 8 then do
    let attr_name ← (← (← av.get 1).attrE "name").asStr
    let object_type1 ← av.get 2
    let attr ← dbc.get_attribute_definition attr_name
    let node_name ← (← av.get 3).asStr
    let node ← dbc.get_node node_name
    let object_type2 ← av.get 4
    let _attr_value ← read_attribute_value (← av.get 6) attr
    if object_type1 = .str "BU_BO_REL_" ∧ object_type2 = .str "BO_" then do
      let msg_id ← read_int (← av.get 5)
      let _msg ← dbc.get_message msg_id
      .ok (dbc, some node)
    else if object_type1 = .str "BU_EV_REL_" ∧ object_type2 = .str "EV_" then do
      let ev_name ← (← av.get 5).asStr
      let _ev ← dbc.get_environment_variable ev_name
      .ok (dbc, some node)
    else .error (.RuntimeError "Unexpected object for attribute value")
  else if attr_type = .str "BA_REL_" ∧ av.length = 9 then do
    let attr_name ← (← (← av.get 1).attrE "name").asStr
    let object_type1 ← av.get 2
    let attr ← dbc.get_attribute_definition attr_name
    let _node_name ← av.get 3
    let object_type2 ← av.get 4
    let _attr_value ← read_attribute_value (← av.get 7) attr
    if object_type1 = .str "BU_SG_REL_" ∧ object_type2 = .str "SG_" then do
      let msg_id ← read_int (← av.get 5)
      let msg ← dbc.get_message msg_id
      let sig_name ← (← av.get 6).asStr
      let _sig ← msg.get_signal sig_name
      match node_local with
      | some _ => .ok (dbc, node_local)
      | Option.none => .error (.UnboundLocalError "node")
    else .error (.RuntimeError "Unexpected object for attribute value")
  else .error (.RuntimeError "Unexpected token length in attribute_value")

/-- The `BA_DEF_` loop of `DbcFactory._process_attributes`. -/
def process_attribute_definitions_list (dbc : DbcFile) : List PyVal → Except DbcError DbcFile
  | [] => .ok dbc
  | ad :: rest => do
    let dbc ← process_attribute_definition dbc ad
    process_attribute_definitions_list dbc rest

/-- The `BA_DEF_DEF_` loop of `DbcFactory._process_attributes`. -/
def process_attribute_defaults_list (dbc : DbcFile) : List PyVal → Except DbcError DbcFile
  | [] => .ok dbc
  | ad :: rest => do
    let dbc ← process_attribute_default dbc ad
    process_attribute_defaults_list dbc rest

/-- The `BA_` loop of `DbcFactory._process_attributes`, threading the
file together with the loop-carried Python local `node`. -/
def process_attribute_values_list (dbc : DbcFile) (node_local : Option DbcNode) :
    List PyVal → Except DbcError (DbcFile × Option DbcNode)
  | [] => .ok (dbc, node_local)
  | av :: rest => do
    let st ← process_attribute_value dbc node_local av
    process_attribute_values_list st.1 st.2 rest

/-- `DbcFactory._process_attributes`: definitions, then defaults, then
values, in the source's order.  The local `node` is unbound when the
`BA_` loop starts. -/
def process_attributes (ast : PyVal) (dbc : DbcFile) : Except DbcError DbcFile := do
  let attribute_definitions ← (← ast.attrE "attribute_definitions").items
  let dbc ← process_attribute_definitions_list dbc attribute_definitions
  let attribute_defaults ← (← ast.attrE "attribute_defaults").items
  let dbc ← process_attribute_defaults_list dbc attribute_defaults
  let attribute_values ← (← ast.attrE "attribute_values").items
  let st ← process_attribute_values_list dbc Option.none attribute_values
  .ok st.1

/-- The value loop of a signal-scoped `VAL_` statement (direct Python
`float(value[0])`, not `read_float`). -/
def process_value_description_signal_values (sig : DbcSignal) : List PyVal → Except DbcError DbcSignal
  | [] => .ok sig
  | value :: rest => do
    let val ← pyFloat (← value.get 0)
    let label ← read_char_string (← (← value.get 1).asStr)
    process_value_description_signal_values (sig.add_value_description val label) rest

/-- The value loop of an envvar-scoped `VAL_` statement. -/
def process_value_description_ev_values (ev : DbcEnvironmentVariable) : List PyVal → Except DbcError DbcEnvironmentVariable
  | [] => .ok ev
  | value :: rest => do
    let val ← pyFloat (← value.get 0)
    let label ← read_char_string (← (← value.get 1).asStr)
    process_value_description_ev_values (ev.add_value_description val label) rest

/-- One `VAL_` statement: length 5 names a message signal, length 4 an
environment variable. -/
def process_value_description (dbc : DbcFile) (vd : PyVal) : Except DbcError DbcFile :=
  if vd.length = 5 then do
    let msg_id ← read_int (← vd.get 1)
    let msg ← dbc.get_message msg_id
    let sig_name ← (← vd.get 2).asStr
    let sig ← msg.get_signal sig_name
    let values ← (← vd.get 3).items
    let sig ← process_value_description_signal_values sig values
    .ok (dbc.set_message msg_id (msg.set_signal sig_name sig))
  else if vd.length = 4 then do
    let ev_name ← (← vd.get 1).asStr
    let ev ← dbc.get_environment_variable ev_name
    let values ← (← vd.get 2).items
    let ev ← process_value_description_ev_values ev values
    .ok (dbc.set_environment_variable ev_name ev)
  else .error (.RuntimeError "Unexpected token length in value_description")

/-- The loop of `DbcFactory._process_value_descriptions`. -/
def process_value_descriptions_list (dbc : DbcFile) : List PyVal → Except DbcError DbcFile
  | [] => .ok dbc
  | vd :: rest => do
    let dbc ← process_value_description dbc vd
    process_value_descriptions_list dbc rest

/-- `DbcFactory._process_value_descriptions`. -/
def process_value_descriptions (ast : PyVal) (dbc : DbcFile) : Except DbcError DbcFile := do
  let value_descriptions ← (← ast.attrE "value_descriptions").items
  process_value_descriptions_list dbc value_descriptions

/-- The signal loop of one `SIG_GROUP_` statement: referenced signals are
resolved within the same message. -/
def process_signal_group_signals (msg : DbcMessage) (sig_gp : DbcSignalGroup) : List PyVal → Except DbcError DbcSignalGroup
  | [] => .ok sig_gp
  | signal_name :: rest => do
    let n ← signal_name.asStr
    let sig ← msg.get_signal n
    process_signal_group_signals msg (sig_gp.add_signal sig) rest

/-- One `SIG_GROUP_` statement. -/
def process_signal_group (dbc : DbcFile) (signal_group : PyVal) : Except DbcError DbcFile := do
  let msg_id ← read_int (← signal_group.get 1)
  let msg ← dbc.get_message msg_id
  let sig_gp_name ← (← signal_group.get 2).asStr
  let repetitions ← read_int (← signal_group.get 3)
  let sig_gp : DbcSignalGroup := ⟨sig_gp_name, repetitions, []⟩
  let signal_names ← (← signal_group.get 5).items
  let sig_gp ← process_signal_group_signals msg sig_gp signal_names
  .ok (dbc.set_message msg_id (msg.add_signal_group sig_gp))

/-- The loop of `DbcFactory._process_signal_groups`. -/
def process_signal_groups_list (dbc : DbcFile) : List PyVal → Except DbcError DbcFile
  | [] => .ok dbc
  | sg :: rest => do
    let dbc ← process_signal_group dbc sg
    process_signal_groups_list dbc rest

/-- `DbcFactory._process_signal_groups`. -/
def process_signal_groups (ast : PyVal) (dbc : DbcFile) : Except DbcError DbcFile := do
  let signal_groups ← (← ast.attrE "signal_groups").items
  process_signal_groups_list dbc signal_groups

/-- `DbcFactory._process_version`: when a `VERSION` directive is present,
unquote `parsed_version[1]` into `dbc.version`. -/
def process_version (ast : PyVal) (dbc : DbcFile) : Except DbcError DbcFile := do
  let v ← ast.attrE "version"
  if v ≠ .none then do
    let s ← (← v.get 1).asStr
    let version ← read_char_string s
    .ok { dbc with version := version }
  else .ok dbc

/-- The value loop of one `VAL_TABLE_` statement (`read_float`, then label
unquoting, then `DbcValueTable._add_value` with its duplicate-label
check). -/
def process_value_table_values (vt : DbcValueTable) : List PyVal → Except DbcError DbcValueTable
  | [] => .ok vt
  | value :: rest => do
    let val ← read_float (← value.get 0)
    let label ← read_char_string (← (← value.get 1).asStr)
    let vt ← vt.add_value val label
    process_value_table_values vt rest

/-- The table loop of `DbcFactory._process_value_tables`. -/
def process_value_tables_list (dbc : DbcFile) : List PyVal → Except DbcError DbcFile
  | [] => .ok dbc
  | vtable :: rest => do
    let name ← (← vtable.get 1).asStr
    let vt : DbcValueTable := ⟨name, []⟩
    let values ← (← vtable.get 2).items
    let vt ← process_value_table_values vt values
    let dbc ← dbc.add_value_table vt
    process_value_tables_list dbc rest

/-- `DbcFactory._process_value_tables`. -/
def process_value_tables (ast : PyVal) (dbc : DbcFile) : Except DbcError DbcFile := do
  let vtables ← (← ast.attrE "value_tables").items
  process_value_tables_list dbc vtables

/-- `DbcFactory.create_dbc`, from the materialized parse tree (the tatsu
grammar file itself is not part of the repository sources); the eleven
binder passes run in the source's exact order. -/
def create_dbc (ast : PyVal) : Except DbcError DbcFile := do
  let dbc := DbcFile.empty
  let dbc ← process_version ast dbc
  let dbc ← process_nodes ast dbc
  let dbc ← process_value_tables ast dbc
  let dbc ← process_messages ast dbc
  let dbc ← process_environment_variables ast dbc
  let dbc ← process_environment_variables_data ast dbc
  let dbc ← process_comments ast dbc
  let dbc ← process_attributes ast dbc
  let dbc ← process_value_descriptions ast dbc
  let dbc ← process_signal_type_refs ast dbc
  process_signal_groups ast dbc

end DbcFactory

/-! ## Concrete parse trees, mirroring inputs of the repository's test
suite (`test_dbc_parser.py`).  A quoted attribute name parses to an AST
node whose `name` field holds the string, hence `nameNode`. -/

/-- The AST node of a quoted attribute name (accessed as `…[i].name`). -/
def nameNode (s : String) : PyVal := .dict [("name", .str s)]

/-- Parse tree of `SG_ SIGNAL11 : 18|2@1+ (1,0) [0|10] ""  NODE2`. -/
def signal11Ast : PyVal := .dict [
  ("signal_name", .str "SIGNAL11"),
  ("start_bit", .str "18"),
  ("signal_size", .str "2"),
  ("byte_order", .str "1"),
  ("value_type", .str "+"),
  ("factor", .str "1"),
  ("offset", .str "0"),
  ("minimum", .str "0"),
  ("maximum", .str "10"),
  ("unit", .str "\"\"")]

/-- Parse tree of `BO_ 123 MESSAGE1: 8 NODE1` with the signal above. -/
def message123Ast : PyVal := .dict [
  ("message_id", .str "123"),
  ("message_name", .str "MESSAGE1"),
  ("message_size", .str "8"),
  ("transmitter", .str "NODE1"),
  ("signals", .list [signal11Ast])]

/-- The empty tail sections shared by the concrete parse trees. -/
def emptyTailSections : List (String × PyVal) := [
  ("value_descriptions", .list []),
  ("signal_type_refs", .list []),
  ("signal_groups", .list [])]

/-- Parse tree of the `test_attribute_node_signal` input: nodes NODE1 and
NODE2, message 123 with SIGNAL11, a `BA_DEF_REL_ BU_SG_REL_ "ATTR" INT 0
65535;` schema, its `BA_DEF_DEF_REL_ "ATTR" 0;` default, and two `BA_REL_
"ATTR" BU_SG_REL_ <node> SG_ 123 SIGNAL11 <v>;` assignments for NODE1 and
NODE2. -/
def astNodeSignalAttr : PyVal := .dict ([
  ("nodes", .dict [("node_names", .list [.str "NODE1", .str "NODE2"])]),
  ("value_tables", .list []),
  ("messages", .list [message123Ast]),
  ("environment_variables", .list []),
  ("environment_variables_data", .list []),
  ("comments", .list []),
  ("attribute_definitions", .list [
    .list [.str "BA_DEF_REL_", .str "BU_SG_REL_", nameNode "ATTR",
           .list [.str "INT", .str "0", .str "65535"], .str ";"]]),
  ("attribute_defaults", .list [
    .list [.str "BA_DEF_DEF_REL_", nameNode "ATTR", .str "0", .str ";"]]),
  ("attribute_values", .list [
    .list [.str "BA_REL_", nameNode "ATTR", .str "BU_SG_REL_", .str "NODE1",
           .str "SG_", .str "123", .str "SIGNAL11", .str "3000", .str ";"],
    .list [.str "BA_REL_", nameNode "ATTR", .str "BU_SG_REL_", .str "NODE2",
           .str "SG_", .str "123", .str "SIGNAL11", .str "4000", .str ";"]])]
  ++ emptyTailSections)

/-- Parse tree of the `test_attribute_signal_dup` input: a `BA_DEF_ SG_
"ATTR" INT 0 0;` schema, its default, and the same `BA_ "ATTR" SG_ 123
SIGNAL11 2660;` assignment twice. -/
def astSignalAttrDup : PyVal := .dict ([
  ("nodes", .dict [("node_names", .list [.str "NODE1", .str "NODE2"])]),
  ("value_tables", .list []),
  ("messages", .list [message123Ast]),
  ("environment_variables", .list []),
  ("environment_variables_data", .list []),
  ("comments", .list []),
  ("attribute_definitions", .list [
    .list [.str "BA_DEF_", .str "SG_", nameNode "ATTR",
           .list [.str "INT", .str "0", .str "0"], .str ";"]]),
  ("attribute_defaults", .list [
    .list [.str "BA_DEF_DEF_", nameNode "ATTR", .str "0", .str ";"]]),
  ("attribute_values", .list [
    .list [.str "BA_", nameNode "ATTR", .str "SG_", .str "123",
           .str "SIGNAL11", .str "2660", .str ";"],
    .list [.str "BA_", nameNode "ATTR", .str "SG_", .str "123",
           .str "SIGNAL11", .str "2660", .str ";"]])]
  ++ emptyTailSections)

/-- Parse tree of `VAL_TABLE_ t 1 "x" 2 "x";` in an otherwise empty file. -/
def astValueTableDup : PyVal := .dict ([
  ("nodes", .dict [("node_names", .list [])]),
  ("value_tables", .list [
    .list [.str "VAL_TABLE_", .str "t",
           .list [.list [.str "1", .str "\"x\""], .list [.str "2", .str "\"x\""]],
           .str ";"]]),
  ("messages", .list []),
  ("environment_variables", .list []),
  ("environment_variables_data", .list []),
  ("comments", .list []),
  ("attribute_definitions", .list []),
  ("attribute_defaults", .list []),
  ("attribute_values", .list [])]
  ++ emptyTailSections)

/-- Parse tree of `EV_ EVAR1: 0 [-10|10] "UNIT" 0 1 DUMMY_NODE_VECTOR0
NODE2;` (positional items as the grammar yields them). -/
def evar1Node2Ast : PyVal := .list [
  .str "EV_", .str "EVAR1", .str ":", .str "0", .str "[", .str "-10",
  .str "|", .str "10", .str "]", .str "\"UNIT\"", .str "0", .str "1",
  .str "DUMMY_NODE_VECTOR0", .str "NODE2", .list [], .str ";"]

/-- Parse tree of the `test_ev_missing_node` input: only NODE1 is declared,
but the environment variable's access list names NODE2. -/
def astEvMissingNode : PyVal := .dict ([
  ("nodes", .dict [("node_names", .list [.str "NODE1"])]),
  ("value_tables", .list []),
  ("messages", .list []),
  ("environment_variables", .list [evar1Node2Ast]),
  ("environment_variables_data", .list []),
  ("comments", .list []),
  ("attribute_definitions", .list []),
  ("attribute_defaults", .list []),
  ("attribute_values", .list [])]
  ++ emptyTailSections)

/-! ## Claim theorems -/

/-- C1 (counterexample): the claim says source token `"1"` yields
`LITTLE_ENDIAN` and `"0"` yields `BIG_ENDIAN`; `read_byte_order` does the
opposite, and a signal parsed from the byte-order token `"1"` (the
`test_signal` input, which the test suite itself expects to be
`BIG_ENDIAN`) comes out `BIG_ENDIAN`. -/
theorem read_byte_order_token_one_not_little :
    read_byte_order (.str "1") = .ok .BIG_ENDIAN ∧
    read_byte_order (.str "0") = .ok .LITTLE_ENDIAN ∧
    read_byte_order (.str "1") ≠ .ok .LITTLE_ENDIAN ∧
    (DbcFactory.create_signal signal11Ast >>= fun sig =>
      (.ok sig.byte_order : Except DbcError DbcSignalByteOrder)) = .ok .BIG_ENDIAN := by
  decide

/-- The `test_attribute_node_signal` input extended so that a `BA_ "NATTR"
BU_ NODE1 5;` node assignment (with its `BA_DEF_ BU_ "NATTR" INT 0 9;`
schema) precedes the two `BA_REL_` statements: its branch binds the
loop-carried Python local `node`, so the `BU_SG_REL_` warning's f-string
can evaluate and the parse runs to completion. -/
def astNodeSignalAttrBound : PyVal := .dict ([
  ("nodes", .dict [("node_names", .list [.str "NODE1", .str "NODE2"])]),
  ("value_tables", .list []),
  ("messages", .list [message123Ast]),
  ("environment_variables", .list []),
  ("environment_variables_data", .list []),
  ("comments", .list []),
  ("attribute_definitions", .list [
    .list [.str "BA_DEF_", .str "BU_", nameNode "NATTR",
           .list [.str "INT", .str "0", .str "9"], .str ";"],
    .list [.str "BA_DEF_REL_", .str "BU_SG_REL_", nameNode "ATTR",
           .list [.str "INT", .str "0", .str "65535"], .str ";"]]),
  ("attribute_defaults", .list [
    .list [.str "BA_DEF_DEF_REL_", nameNode "ATTR", .str "0", .str ";"]]),
  ("attribute_values", .list [
    .list [.str "BA_", nameNode "NATTR", .str "BU_", .str "NODE1", .str "5", .str ";"],
    .list [.str "BA_REL_", nameNode "ATTR", .str "BU_SG_REL_", .str "NODE1",
           .str "SG_", .str "123", .str "SIGNAL11", .str "3000", .str ";"],
    .list [.str "BA_REL_", nameNode "ATTR", .str "BU_SG_REL_", .str "NODE2",
           .str "SG_", .str "123", .str "SIGNAL11", .str "4000", .str ";"]])]
  ++ emptyTailSections)

/-- C2: the code never stores `BU_SG_REL_` attribute values, contrary to
the claim and to `test_attribute_node_signal`.  At the test input itself
the parse does not even finish: the first `BA_REL_` statement's warning
reads the function-scoped local `node`, which no branch has assigned yet,
so it raises `UnboundLocalError`.  And when an earlier `BA_ … BU_`
statement has bound `node` (`astNodeSignalAttrBound`), the parse succeeds
with the two decoded values stored nowhere: the signal's attribute map and
the global attribute values are empty, NODE1 carries only its `NATTR`
value, NODE2 nothing — `DbcSignal` has no per-node attribute map at
all. -/
theorem bu_sg_rel_value_discarded :
    DbcFactory.create_dbc astNodeSignalAttr = .error (.UnboundLocalError "node") ∧
    (DbcFactory.create_dbc astNodeSignalAttrBound >>= fun dbc =>
     dbc.get_message 123 >>= fun msg =>
     msg.get_signal "SIGNAL11" >>= fun sig =>
     (.ok ((sig.attributes.map Prod.fst) :: (dbc.attribute_values.map Prod.fst) ::
           dbc.nodes_by_name.map (fun kv => kv.2.attributes.map Prod.fst))
       : Except DbcError (List (List String))))
    = .ok [[], [], ["NATTR"], []] ∧
    (DbcFactory.create_dbc astNodeSignalAttrBound >>= fun dbc =>
     (.ok (dbc.has_attribute_definition "ATTR") : Except DbcError Bool)) = .ok true := by
  refine ⟨by decide, by decide, by decide⟩

/-- C3: the claim says `VAL_TABLE_ t 1 "x" 2 "x";` succeeds with two
ordered entries; the code keys value-table entries by label in a dict and
raises on the duplicated label `"x"`, so the whole parse fails. -/
theorem value_table_duplicate_label_fatal :
    DbcFactory.create_dbc astValueTableDup = .error (.DuplicateEntity "x") := by
  decide

/-- C4: the claim says an unknown node name in an `EV_` access list gets a
best-effort stub node; the code does a plain `nodes_by_name[name]` lookup,
so the `test_ev_missing_node` input (NODE2 never declared) makes the whole
parse fail with an unresolved reference instead. -/
theorem ev_unknown_access_node_fatal :
    DbcFactory.create_dbc astEvMissingNode = .error (.UnresolvedReference "NODE2") := by
  decide

/-- C5: the claim says a duplicate assignment to the same (scope, attribute)
pair is tolerated with last-writer-wins; the code's `add_attribute` raises
on an existing key, so the `test_attribute_signal_dup` input (the same
`BA_ "ATTR" SG_ 123 SIGNAL11 2660;` twice) fails instead of succeeding. -/
theorem duplicate_attribute_assignment_fatal :
    DbcFactory.create_dbc astSignalAttrDup = .error (.DuplicateEntity "ATTR") := by
  decide

/-- C10: `read_char_string` is total exactly on non-empty strings — the
empty string raises `IndexError` because the source unconditionally
inspects `value[0]`; every non-empty string succeeds; and on the
one-character string `"` the begins-with and ends-with tests see the same
character, so it returns the empty string rather than the input as-is. -/
theorem read_char_string_edge_cases :
    (read_char_string "" = .error (.IndexError "string index out of range")) ∧
    (∀ s : String, s ≠ "" → ∃ r, read_char_string s = .ok r) ∧
    (read_char_string "\"" = .ok "" ∧ ("\"" : String) ≠ "") := by
  refine ⟨by decide, ?_, by decide, by decide⟩
  intro s hs
  obtain ⟨data⟩ := s
  match data with
  | [] => exact absurd rfl hs
  | c :: cs =>
    unfold read_char_string
    dsimp only
    split
    · exact ⟨_, rfl⟩
    · exact ⟨_, rfl⟩

/-- Witness for C10: the theorem applied at the concrete non-empty string
`abc`. -/
theorem read_char_string_edge_cases_witness :
    ∃ r, read_char_string "abc" = .ok r :=
  read_char_string_edge_cases.2.1 "abc" (by decide)

/-! ## Helper lemmas for reasoning about the binder -/

/-- Inversion of a successful `Except` bind. -/
theorem except_bind_ok {ε α β : Type} {e : Except ε α} {f : α → Except ε β} {b : β}
    (h : (e >>= f) = .ok b) : ∃ a, e = .ok a ∧ f a = .ok b := by
  cases e with
  | ok a => exact ⟨a, rfl, h⟩
  | error err => exact absurd h (by simp [Bind.bind, Except.bind])

/-- Updating a key makes it the one looked up. -/
theorem alistLookup_set_self {K V : Type} [DecidableEq K] (l : List (K × V)) (k : K) (v : V) :
    alistLookup (alistSet l k v) k = some v := by
  induction l with
  | nil => simp [alistSet, alistLookup]
  | cons hd t ih =>
    obtain ⟨k', v'⟩ := hd
    by_cases hk : k' = k
    · subst hk; simp [alistSet, alistLookup]
    · simp [alistSet, alistLookup, hk, ih]

/-- Updating one key leaves the others untouched. -/
theorem alistLookup_set_other {K V : Type} [DecidableEq K] (l : List (K × V)) (k k2 : K) (v : V)
    (hne : k ≠ k2) : alistLookup (alistSet l k v) k2 = alistLookup l k2 := by
  induction l with
  | nil => simp [alistSet, alistLookup, hne]
  | cons hd t ih =>
    obtain ⟨k', v'⟩ := hd
    by_cases hk : k' = k
    · subst hk; simp [alistSet, alistLookup, hne]
    · simp [alistSet, alistLookup, hk, ih]

/-- A message just stored under its id is what `get_message` returns. -/
theorem get_message_set_message (dbc : DbcFile) (id : Int) (m : DbcMessage) :
    (dbc.set_message id m).get_message id = .ok m := by
  simp [DbcFile.set_message, DbcFile.get_message, alistLookup_set_self]

/-- A signal just stored under its name is what `get_signal` returns. -/
theorem get_signal_set_signal (msg : DbcMessage) (name : String) (s : DbcSignal) :
    (msg.set_signal name s).get_signal name = .ok s := by
  simp [DbcMessage.set_signal, DbcMessage.get_signal, alistLookup_set_self]

/-- An environment variable just stored under its name is what the getter
returns. -/
theorem get_environment_variable_set (dbc : DbcFile) (name : String) (ev : DbcEnvironmentVariable) :
    (dbc.set_environment_variable name ev).get_environment_variable name = .ok ev := by
  simp [DbcFile.set_environment_variable, DbcFile.get_environment_variable, alistLookup_set_self]

/-- C1 (amended): for every signal parsed from an `SG_` statement, the
byte-order token decodes with the inverted convention the other way round
from the claim: source token `"0"` yields `LITTLE_ENDIAN` and source token
`"1"` yields `BIG_ENDIAN`. -/
theorem create_signal_byte_order_decoding (p : PyVal) (sig : DbcSignal)
    (h : DbcFactory.create_signal p = .ok sig) :
    ∃ tok, p.attrE "byte_order" = .ok tok ∧
      read_byte_order tok = .ok sig.byte_order ∧
      (tok = .str "0" → sig.byte_order = .LITTLE_ENDIAN) ∧
      (tok = .str "1" → sig.byte_order = .BIG_ENDIAN) := by
  unfold DbcFactory.create_signal at h
  obtain ⟨a1, h1, h⟩ := except_bind_ok h
  obtain ⟨n1, hn1, h⟩ := except_bind_ok h
  obtain ⟨a2, h2, h⟩ := except_bind_ok h
  obtain ⟨n2, hn2, h⟩ := except_bind_ok h
  obtain ⟨a3, h3, h⟩ := except_bind_ok h
  obtain ⟨n3, hn3, h⟩ := except_bind_ok h
  obtain ⟨a4, h4, h⟩ := except_bind_ok h
  obtain ⟨bo, hbo, h⟩ := except_bind_ok h
  obtain ⟨a5, h5, h⟩ := except_bind_ok h
  obtain ⟨n5, hn5, h⟩ := except_bind_ok h
  obtain ⟨a6, h6, h⟩ := except_bind_ok h
  obtain ⟨n6, hn6, h⟩ := except_bind_ok h
  obtain ⟨a7, h7, h⟩ := except_bind_ok h
  obtain ⟨n7, hn7, h⟩ := except_bind_ok h
  obtain ⟨a8, h8, h⟩ := except_bind_ok h
  obtain ⟨n8, hn8, h⟩ := except_bind_ok h
  obtain ⟨a9, h9, h⟩ := except_bind_ok h
  obtain ⟨n9, hn9, h⟩ := except_bind_ok h
  obtain ⟨a10, h10, h⟩ := except_bind_ok h
  obtain ⟨n10, hn10, h⟩ := except_bind_ok h
  obtain ⟨n11, hn11, h⟩ := except_bind_ok h
  injection h with h
  subst h
  refine ⟨a4, h4, hbo, ?_, ?_⟩
  · intro ht
    rw [ht] at hbo
    simp only [read_byte_order, if_pos rfl] at hbo
    injection hbo with hbo
    exact hbo.symm
  · intro ht
    rw [ht] at hbo
    have hne : (PyVal.str "1") ≠ (PyVal.str "0") := by decide
    simp only [read_byte_order, if_neg hne, if_pos rfl] at hbo
    injection hbo with hbo
    exact hbo.symm

/-- Witness for C1's amended theorem at the `test_signal` parse tree. -/
theorem create_signal_byte_order_decoding_witness :
    ∃ tok, signal11Ast.attrE "byte_order" = .ok tok ∧
      read_byte_order tok = .ok (DbcSignalByteOrder.BIG_ENDIAN) ∧
      (tok = .str "0" → DbcSignalByteOrder.BIG_ENDIAN = .LITTLE_ENDIAN) ∧
      (tok = .str "1" → DbcSignalByteOrder.BIG_ENDIAN = .BIG_ENDIAN) :=
  create_signal_byte_order_decoding signal11Ast
    ⟨"SIGNAL11", 18, 2, .BIG_ENDIAN, .UNSIGNED, some ⟨1, 0⟩, some ⟨0, 0⟩,
     some ⟨0, 0⟩, some ⟨10, 0⟩, "", [], "N/A", []⟩ (by decide)

/-- A one-statement `ENVVAR_DATA_ E : k;` section, as the grammar yields
it. -/
def envvarDataAst (E ktok : String) : PyVal :=
  .dict [("environment_variables_data",
          .list [.list [.str "ENVVAR_DATA_", .str E, .str ":", .str ktok, .str ";"]])]

/-- C8: after `ENVVAR_DATA_ E : k;` on a previously declared environment
variable `E`, its `type` is `DATA` and its `data_size` is `k`, whatever the
original `EV_` type code was (the theorem quantifies over the whole prior
`DbcFile`); an undeclared `E` fails with `UnresolvedReference`. -/
theorem envvar_data_promotion (dbc : DbcFile) (E ktok : String) (k : Int) :
    (∀ ev, dbc.get_environment_variable E = .ok ev → read_int (.str ktok) = .ok k →
      ∃ dbc' ev',
        DbcFactory.process_environment_variables_data (envvarDataAst E ktok) dbc = .ok dbc' ∧
        dbc'.get_environment_variable E = .ok ev' ∧
        ev'.type = .DATA ∧ ev'.data_size = k) ∧
    (dbc.get_environment_variable E = .error (.UnresolvedReference E) →
      DbcFactory.process_environment_variables_data (envvarDataAst E ktok) dbc =
        .error (.UnresolvedReference E)) := by
  constructor
  · intro ev hev hk
    refine ⟨dbc.set_environment_variable E { ev with type := .DATA, data_size := k },
            { ev with type := .DATA, data_size := k }, ?_, get_environment_variable_set dbc E _, rfl, rfl⟩
    unfold DbcFactory.process_environment_variables_data envvarDataAst
    simp [PyVal.attrE, PyVal.items, DbcFactory.process_environment_variables_data_list,
          PyVal.get, PyVal.asStr, hev, hk, Bind.bind, Except.bind]
  · intro hev
    unfold DbcFactory.process_environment_variables_data envvarDataAst
    simp [PyVal.attrE, PyVal.items, DbcFactory.process_environment_variables_data_list,
          PyVal.get, PyVal.asStr, hev, Bind.bind, Except.bind]

/-- A `DbcFile` holding one integer-typed environment variable `EVAR1`,
used to witness the envvar-data promotion. -/
def dbcWithEvar : DbcFile :=
  ⟨"N/A", [], [],
   [("EVAR1", ⟨"EVAR1", .INTEGER, Option.none, Option.none, "UNIT", Option.none, 1,
               .UNRESTRICTED, [], "N/A", [], [], 0⟩)], [], [], []⟩

/-- Witness for C8 at `ENVVAR_DATA_ EVAR1: 6;` over `dbcWithEvar`. -/
theorem envvar_data_promotion_witness :
    ∃ dbc' ev',
      DbcFactory.process_environment_variables_data (envvarDataAst "EVAR1" "6") dbcWithEvar = .ok dbc' ∧
      dbc'.get_environment_variable "EVAR1" = .ok ev' ∧
      ev'.type = .DATA ∧ ev'.data_size = 6 :=
  (envvar_data_promotion dbcWithEvar "EVAR1" "6" 6).1
    ⟨"EVAR1", .INTEGER, Option.none, Option.none, "UNIT", Option.none, 1,
     .UNRESTRICTED, [], "N/A", [], [], 0⟩
    (by decide) (by decide)

/-- A one-statement `SIG_VALTYPE_ <id> <sig> : <code>;` section. -/
def sigValtypeAst (midTok sname code : String) : PyVal :=
  .dict [("signal_type_refs",
          .list [.list [.str "SIG_VALTYPE_", .str midTok, .str sname, .str ":", .str code]])]

/-- C7: a `SIG_VALTYPE_` statement resolving to a declared signal stores
the decoded extended value type on that signal; the decoder maps code `2`
to `FLOAT64`, `1` to `FLOAT32`, `0` to the signal's unchanged value type,
and anything else to an `UnexpectedToken` failure that aborts the pass. -/
theorem sig_valtype_semantics (dbc : DbcFile) (midTok sname code : String) (mid : Int)
    (msg : DbcMessage) (sig : DbcSignal)
    (hmid : read_int (.str midTok) = .ok mid)
    (hmsg : dbc.get_message mid = .ok msg)
    (hsig : msg.get_signal sname = .ok sig) :
    (∀ vt : DbcSignalValueType,
      read_extended_value_type (.str code) sig = .ok vt →
      ∃ dbc' msg' sig',
        DbcFactory.process_signal_type_refs (sigValtypeAst midTok sname code) dbc = .ok dbc' ∧
        dbc'.get_message mid = .ok msg' ∧ msg'.get_signal sname = .ok sig' ∧
        sig'.value_type = vt) ∧
    (code = "2" → read_extended_value_type (.str code) sig = .ok .FLOAT64) ∧
    (code = "1" → read_extended_value_type (.str code) sig = .ok .FLOAT32) ∧
    (code = "0" → read_extended_value_type (.str code) sig = .ok sig.value_type) ∧
    (code ≠ "0" → code ≠ "1" → code ≠ "2" →
      DbcFactory.process_signal_type_refs (sigValtypeAst midTok sname code) dbc =
        .error (.UnexpectedToken "extended value type")) := by
  refine ⟨?_, ?_, ?_, ?_, ?_⟩
  · intro vt hvt
    refine ⟨dbc.set_message mid (msg.set_signal sname { sig with value_type := vt }),
            msg.set_signal sname { sig with value_type := vt },
            { sig with value_type := vt }, ?_,
            get_message_set_message dbc mid _, get_signal_set_signal msg sname _, rfl⟩
    unfold DbcFactory.process_signal_type_refs sigValtypeAst
    simp [PyVal.attrE, PyVal.items, DbcFactory.process_signal_type_refs_list,
          DbcFactory.process_signal_type_ref, PyVal.get, PyVal.asStr,
          hmid, hmsg, hsig, hvt, Bind.bind, Except.bind]
  · intro h; subst h; rfl
  · intro h; subst h; rfl
  · intro h; subst h; rfl
  · intro h0 h1 h2
    have hvt : read_extended_value_type (.str code) sig = .error (.UnexpectedToken "extended value type") := by
      unfold read_extended_value_type
      rw [if_neg (by simpa using h0), if_neg (by simpa using h1), if_neg (by simpa using h2)]
    unfold DbcFactory.process_signal_type_refs sigValtypeAst
    simp [PyVal.attrE, PyVal.items, DbcFactory.process_signal_type_refs_list,
          DbcFactory.process_signal_type_ref, PyVal.get, PyVal.asStr,
          hmid, hmsg, hsig, hvt, Bind.bind, Except.bind]

/-- The signal built from `signal11Ast`. -/
def signal11 : DbcSignal :=
  ⟨"SIGNAL11", 18, 2, .BIG_ENDIAN, .UNSIGNED, some ⟨1, 0⟩, some ⟨0, 0⟩,
   some ⟨0, 0⟩, some ⟨10, 0⟩, "", [], "N/A", []⟩

/-- The message built from `message123Ast`. -/
def message123 : DbcMessage :=
  ⟨123, "MESSAGE1", 8, "N/A", "NODE1", [("SIGNAL11", signal11)], [], []⟩

/-- A `DbcFile` holding `message123` and its two nodes. -/
def dbcWithSignal : DbcFile :=
  ⟨"N/A",
   [("NODE1", ⟨"NODE1", "N/A", []⟩), ("NODE2", ⟨"NODE2", "N/A", []⟩)],
   [(123, message123)], [], [], [], []⟩

/-- Witness for C7 at `SIG_VALTYPE_ 123 SIGNAL11 : 2;` over
`dbcWithSignal` (the `test_signal_extended_type` scenario). -/
theorem sig_valtype_semantics_witness :
    ∃ dbc' msg' sig',
      DbcFactory.process_signal_type_refs (sigValtypeAst "123" "SIGNAL11" "2") dbcWithSignal = .ok dbc' ∧
      dbc'.get_message 123 = .ok msg' ∧ msg'.get_signal "SIGNAL11" = .ok sig' ∧
      sig'.value_type = DbcSignalValueType.FLOAT64 :=
  (sig_valtype_semantics dbcWithSignal "123" "SIGNAL11" "2" 123 message123 signal11
    (by decide) (by decide) (by decide)).1 .FLOAT64 (by decide)

/-- A missing key means the key is not among the mapped-out firsts. -/
theorem alistLookup_eq_none_iff {K V : Type} [DecidableEq K] (l : List (K × V)) (k : K) :
    alistLookup l k = Option.none ↔ k ∉ l.map Prod.fst := by
  induction l with
  | nil => simp [alistLookup]
  | cons hd t ih =>
    obtain ⟨k', v'⟩ := hd
    by_cases hk : k' = k
    · subst hk; simp [alistLookup]
    · simp [alistLookup, hk, ih, Ne.symm hk]

/-- The node pass preserves distinctness of the node index keys. -/
theorem process_nodes_list_nodup (names : List PyVal) :
    ∀ dbc dbc' : DbcFile,
      DbcFactory.process_nodes_list dbc names = .ok dbc' →
      (dbc.nodes_by_name.map Prod.fst).Nodup →
      (dbc'.nodes_by_name.map Prod.fst).Nodup := by
  induction names with
  | nil =>
    intro dbc dbc' h hinv
    unfold DbcFactory.process_nodes_list at h
    injection h with h
    exact h ▸ hinv
  | cons x rest ih =>
    intro dbc dbc' h hinv
    unfold DbcFactory.process_nodes_list at h
    obtain ⟨node, hnode, h⟩ := except_bind_ok h
    obtain ⟨dbc1, hdbc1, h⟩ := except_bind_ok h
    refine ih dbc1 dbc' h ?_
    unfold DbcFile.add_node at hdbc1
    split at hdbc1
    · exact absurd hdbc1 (by simp)
    · rename_i hcont
      injection hdbc1 with hdbc1
      subst hdbc1
      have hnotin : node.name ∉ dbc.nodes_by_name.map Prod.fst := by
        rw [← alistLookup_eq_none_iff, ← Option.not_isSome_iff_eq_none]
        simpa [alistContains] using hcont
      simp [List.nodup_append, hinv, hnotin]

/-- The `BU_:` section parse tree for the given node names. -/
def nodesAst (names : List String) : PyVal :=
  .dict [("nodes", .dict [("node_names", .list (names.map PyVal.str))])]

/-- C9: two distinct declared node names are both retrievable afterwards;
declaring the same name twice fails with `DuplicateEntity`; and whatever
the declared names, a successful node pass leaves no duplicate key in the
node index. -/
theorem node_uniqueness (a b : String) (hab : a ≠ b) :
    (∃ dbc, DbcFactory.process_nodes (nodesAst [a, b]) DbcFile.empty = .ok dbc ∧
      dbc.has_node a = true ∧ dbc.has_node b = true ∧
      dbc.get_node a = .ok ⟨a, "N/A", []⟩ ∧ dbc.get_node b = .ok ⟨b, "N/A", []⟩) ∧
    DbcFactory.process_nodes (nodesAst [a, a]) DbcFile.empty = .error (.DuplicateEntity a) ∧
    (∀ (names : List String) (dbc' : DbcFile),
      DbcFactory.process_nodes (nodesAst names) DbcFile.empty = .ok dbc' →
      (dbc'.nodes_by_name.map Prod.fst).Nodup) := by
  refine ⟨⟨⟨"N/A", [(a, ⟨a, "N/A", []⟩), (b, ⟨b, "N/A", []⟩)], [], [], [], [], []⟩, ?_, ?_, ?_, ?_, ?_⟩, ?_, ?_⟩
  · unfold DbcFactory.process_nodes nodesAst
    simp [PyVal.attrE, PyVal.items, DbcFactory.process_nodes_list, DbcFactory.create_node,
          PyVal.asStr, DbcFile.add_node, alistContains, alistLookup, hab, DbcFile.empty,
          Bind.bind, Except.bind, pure]
  · simp [DbcFile.has_node, alistContains, alistLookup]
  · simp [DbcFile.has_node, alistContains, alistLookup, hab]
  · simp [DbcFile.get_node, alistLookup]
  · simp [DbcFile.get_node, alistLookup, hab]
  · unfold DbcFactory.process_nodes nodesAst
    simp [PyVal.attrE, PyVal.items, DbcFactory.process_nodes_list, DbcFactory.create_node,
          PyVal.asStr, DbcFile.add_node, alistContains, alistLookup, DbcFile.empty,
          Bind.bind, Except.bind, pure]
  · intro names dbc' h
    unfold DbcFactory.process_nodes nodesAst at h
    obtain ⟨v1, hv1, h⟩ := except_bind_ok h
    obtain ⟨v2, hv2, h⟩ := except_bind_ok h
    obtain ⟨v3, hv3, h⟩ := except_bind_ok h
    refine process_nodes_list_nodup v3 DbcFile.empty dbc' h ?_
    simp [DbcFile.empty]

/-- Witness for C9 at the `test_node` names NODE1 and NODE2. -/
theorem node_uniqueness_witness :
    ∃ dbc, DbcFactory.process_nodes (nodesAst ["NODE1", "NODE2"]) DbcFile.empty = .ok dbc ∧
      dbc.has_node "NODE1" = true ∧ dbc.has_node "NODE2" = true ∧
      dbc.get_node "NODE1" = .ok ⟨"NODE1", "N/A", []⟩ ∧
      dbc.get_node "NODE2" = .ok ⟨"NODE2", "N/A", []⟩ :=
  (node_uniqueness "NODE1" "NODE2" (by decide)).1

/-! ## Version preservation: every binder pass except `_process_version`
and the global-comment branch of `_process_comments` leaves
`DbcFile.version` untouched.  Proved per method, then per loop, then per
pass, finally assembled for `create_dbc`. -/

/-- `_add_node` never touches `version`. -/
theorem add_node_version {dbc dbc' : DbcFile} {n : DbcNode}
    (h : dbc.add_node n = .ok dbc') : dbc'.version = dbc.version := by
  unfold DbcFile.add_node at h
  split at h
  · exact absurd h (by simp)
  · injection h with h; subst h; rfl

/-- `_add_message` never touches `version`. -/
theorem add_message_version {dbc dbc' : DbcFile} {m : DbcMessage}
    (h : dbc.add_message m = .ok dbc') : dbc'.version = dbc.version := by
  unfold DbcFile.add_message at h
  split at h
  · exact absurd h (by simp)
  · injection h with h; subst h; rfl

/-- `_add_value_table` never touches `version`. -/
theorem add_value_table_version {dbc dbc' : DbcFile} {v : DbcValueTable}
    (h : dbc.add_value_table v = .ok dbc') : dbc'.version = dbc.version := by
  unfold DbcFile.add_value_table at h
  split at h
  · exact absurd h (by simp)
  · injection h with h; subst h; rfl

/-- `_add_environment_variable` never touches `version`. -/
theorem add_environment_variable_version {dbc dbc' : DbcFile} {ev : DbcEnvironmentVariable}
    (h : dbc.add_environment_variable ev = .ok dbc') : dbc'.version = dbc.version := by
  unfold DbcFile.add_environment_variable at h
  split at h
  · exact absurd h (by simp)
  · injection h with h; subst h; rfl

/-- `_add_attribute_definition` never touches `version`. -/
theorem add_attribute_definition_version {dbc dbc' : DbcFile} {a : DbcAttribute}
    (h : dbc.add_attribute_definition a = .ok dbc') : dbc'.version = dbc.version := by
  unfold DbcFile.add_attribute_definition at h
  split at h
  · exact absurd h (by simp)
  · injection h with h; subst h; rfl

/-- `add_attribute_value` never touches `version`. -/
theorem add_attribute_value_version {dbc dbc' : DbcFile} {a : DbcAttributeValue}
    (h : dbc.add_attribute_value a = .ok dbc') : dbc'.version = dbc.version := by
  unfold DbcFile.add_attribute_value at h
  split at h
  · exact absurd h (by simp)
  · injection h with h; subst h; rfl

/-- The node loop never touches `version`. -/
theorem process_nodes_list_version (xs : List PyVal) :
    ∀ dbc dbc' : DbcFile, DbcFactory.process_nodes_list dbc xs = .ok dbc' →
      dbc'.version = dbc.version := by
  induction xs with
  | nil =>
    intro dbc dbc' h
    unfold DbcFactory.process_nodes_list at h
    injection h with h; subst h; rfl
  | cons x rest ih =>
    intro dbc dbc' h
    unfold DbcFactory.process_nodes_list at h
    obtain ⟨node, hnode, h⟩ := except_bind_ok h
    obtain ⟨dbc1, hdbc1, h⟩ := except_bind_ok h
    rw [ih dbc1 dbc' h, add_node_version hdbc1]

/-- The value-table loop never touches `version`. -/
theorem process_value_tables_list_version (xs : List PyVal) :
    ∀ dbc dbc' : DbcFile, DbcFactory.process_value_tables_list dbc xs = .ok dbc' →
      dbc'.version = dbc.version := by
  induction xs with
  | nil =>
    intro dbc dbc' h
    unfold DbcFactory.process_value_tables_list at h
    injection h with h; subst h; rfl
  | cons x rest ih =>
    intro dbc dbc' h
    unfold DbcFactory.process_value_tables_list at h
    obtain ⟨nm, hnm, h⟩ := except_bind_ok h
    obtain ⟨n2, h2, h⟩ := except_bind_ok h
    obtain ⟨vs, hvs, h⟩ := except_bind_ok h
    obtain ⟨vals, hvals, h⟩ := except_bind_ok h
    obtain ⟨vt, hvt, h⟩ := except_bind_ok h
    obtain ⟨dbc1, hdbc1, h⟩ := except_bind_ok h
    rw [ih dbc1 dbc' h, add_value_table_version hdbc1]

/-- The message loop never touches `version`. -/
theorem process_messages_list_version (xs : List PyVal) :
    ∀ dbc dbc' : DbcFile, DbcFactory.process_messages_list dbc xs = .ok dbc' →
      dbc'.version = dbc.version := by
  induction xs with
  | nil =>
    intro dbc dbc' h
    unfold DbcFactory.process_messages_list at h
    injection h with h; subst h; rfl
  | cons x rest ih =>
    intro dbc dbc' h
    unfold DbcFactory.process_messages_list at h
    obtain ⟨frame, hframe, h⟩ := except_bind_ok h
    obtain ⟨dbc1, hdbc1, h⟩ := except_bind_ok h
    rw [ih dbc1 dbc' h, add_message_version hdbc1]

/-- The environment-variable loop never touches `version`. -/
theorem process_environment_variables_list_version (xs : List PyVal) :
    ∀ dbc dbc' : DbcFile, DbcFactory.process_environment_variables_list dbc xs = .ok dbc' →
      dbc'.version = dbc.version := by
  induction xs with
  | nil =>
    intro dbc dbc' h
    unfold DbcFactory.process_environment_variables_list at h
    injection h with h; subst h; rfl
  | cons x rest ih =>
    intro dbc dbc' h
    unfold DbcFactory.process_environment_variables_list at h
    obtain ⟨evar, hevar, h⟩ := except_bind_ok h
    obtain ⟨dbc1, hdbc1, h⟩ := except_bind_ok h
    rw [ih dbc1 dbc' h, add_environment_variable_version hdbc1]

/-- The envvar-data loop never touches `version`. -/
theorem process_environment_variables_data_list_version (xs : List PyVal) :
    ∀ dbc dbc' : DbcFile, DbcFactory.process_environment_variables_data_list dbc xs = .ok dbc' →
      dbc'.version = dbc.version := by
  induction xs with
  | nil =>
    intro dbc dbc' h
    unfold DbcFactory.process_environment_variables_data_list at h
    injection h with h; subst h; rfl
  | cons x rest ih =>
    intro dbc dbc' h
    unfold DbcFactory.process_environment_variables_data_list at h
    obtain ⟨nm, hnm, h⟩ := except_bind_ok h
    obtain ⟨n2, h2, h⟩ := except_bind_ok h
    obtain ⟨ev, hev, h⟩ := except_bind_ok h
    obtain ⟨ds, hds, h⟩ := except_bind_ok h
    obtain ⟨k, hk, h⟩ := except_bind_ok h
    rw [ih _ dbc' h]
    rfl

/-- A `BA_DEF_` statement never touches `version`. -/
theorem process_attribute_definition_version {dbc dbc' : DbcFile} {ad : PyVal}
    (h : DbcFactory.process_attribute_definition dbc ad = .ok dbc') :
    dbc'.version = dbc.version := by
  unfold DbcFactory.process_attribute_definition at h
  repeat'
    first
    | (obtain ⟨_, _, h⟩ := except_bind_ok h)
    | (split at h)
  all_goals
    first
    | exact add_attribute_definition_version h
    | (injection h with h; subst h; rfl)
    | (injection h)

/-- A `BA_DEF_DEF_` statement never touches `version`. -/
theorem process_attribute_default_version {dbc dbc' : DbcFile} {ad : PyVal}
    (h : DbcFactory.process_attribute_default dbc ad = .ok dbc') :
    dbc'.version = dbc.version := by
  unfold DbcFactory.process_attribute_default at h
  repeat'
    first
    | (obtain ⟨_, _, h⟩ := except_bind_ok h)
    | (split at h)
  all_goals
    first
    | (injection h with h; subst h; rfl)
    | (injection h)

/-- A `BA_`/`BA_REL_` statement never touches `version`. -/
theorem process_attribute_value_version {dbc : DbcFile} {nloc : Option DbcNode} {av : PyVal}
    {p : DbcFile × Option DbcNode}
    (h : DbcFactory.process_attribute_value dbc nloc av = .ok p) :
    p.1.version = dbc.version := by
  unfold DbcFactory.process_attribute_value at h
  repeat'
    first
    | (obtain ⟨_, _, h⟩ := except_bind_ok h)
    | (split at h)
  all_goals
    first
    | (injection h with h; subst h;
       first
       | rfl
       | (apply add_attribute_value_version; assumption))
    | (injection h)

/-- The `BA_DEF_` loop never touches `version`. -/
theorem process_attribute_definitions_list_version (xs : List PyVal) :
    ∀ dbc dbc' : DbcFile, DbcFactory.process_attribute_definitions_list dbc xs = .ok dbc' →
      dbc'.version = dbc.version := by
  induction xs with
  | nil =>
    intro dbc dbc' h
    unfold DbcFactory.process_attribute_definitions_list at h
    injection h with h; subst h; rfl
  | cons x rest ih =>
    intro dbc dbc' h
    unfold DbcFactory.process_attribute_definitions_list at h
    obtain ⟨dbc1, hdbc1, h⟩ := except_bind_ok h
    rw [ih dbc1 dbc' h, process_attribute_definition_version hdbc1]

/-- The `BA_DEF_DEF_` loop never touches `version`. -/
theorem process_attribute_defaults_list_version (xs : List PyVal) :
    ∀ dbc dbc' : DbcFile, DbcFactory.process_attribute_defaults_list dbc xs = .ok dbc' →
      dbc'.version = dbc.version := by
  induction xs with
  | nil =>
    intro dbc dbc' h
    unfold DbcFactory.process_attribute_defaults_list at h
    injection h with h; subst h; rfl
  | cons x rest ih =>
    intro dbc dbc' h
    unfold DbcFactory.process_attribute_defaults_list at h
    obtain ⟨dbc1, hdbc1, h⟩ := except_bind_ok h
    rw [ih dbc1 dbc' h, process_attribute_default_version hdbc1]

/-- The `BA_` loop never touches `version`. -/
theorem process_attribute_values_list_version (xs : List PyVal) :
    ∀ (dbc : DbcFile) (nloc : Option DbcNode) (p : DbcFile × Option DbcNode),
      DbcFactory.process_attribute_values_list dbc nloc xs = .ok p →
      p.1.version = dbc.version := by
  induction xs with
  | nil =>
    intro dbc nloc p h
    unfold DbcFactory.process_attribute_values_list at h
    injection h with h; subst h; rfl
  | cons x rest ih =>
    intro dbc nloc p h
    unfold DbcFactory.process_attribute_values_list at h
    obtain ⟨st, hst, h⟩ := except_bind_ok h
    rw [ih st.1 st.2 p h, process_attribute_value_version hst]

/-- A `SIG_VALTYPE_` statement never touches `version`. -/
theorem process_signal_type_ref_version {dbc dbc' : DbcFile} {st : PyVal}
    (h : DbcFactory.process_signal_type_ref dbc st = .ok dbc') :
    dbc'.version = dbc.version := by
  unfold DbcFactory.process_signal_type_ref at h
  repeat'
    first
    | (obtain ⟨_, _, h⟩ := except_bind_ok h)
    | (split at h)
  all_goals
    first
    | (injection h with h; subst h; rfl)
    | (injection h)

/-- The `SIG_VALTYPE_` loop never touches `version`. -/
theorem process_signal_type_refs_list_version (xs : List PyVal) :
    ∀ dbc dbc' : DbcFile, DbcFactory.process_signal_type_refs_list dbc xs = .ok dbc' →
      dbc'.version = dbc.version := by
  induction xs with
  | nil =>
    intro dbc dbc' h
    unfold DbcFactory.process_signal_type_refs_list at h
    injection h with h; subst h; rfl
  | cons x rest ih =>
    intro dbc dbc' h
    unfold DbcFactory.process_signal_type_refs_list at h
    obtain ⟨dbc1, hdbc1, h⟩ := except_bind_ok h
    rw [ih dbc1 dbc' h, process_signal_type_ref_version hdbc1]

/-- A `VAL_` statement never touches `version`. -/
theorem process_value_description_version {dbc dbc' : DbcFile} {vd : PyVal}
    (h : DbcFactory.process_value_description dbc vd = .ok dbc') :
    dbc'.version = dbc.version := by
  unfold DbcFactory.process_value_description at h
  repeat'
    first
    | (obtain ⟨_, _, h⟩ := except_bind_ok h)
    | (split at h)
  all_goals
    first
    | (injection h with h; subst h; rfl)
    | (injection h)

/-- The `VAL_` loop never touches `version`. -/
theorem process_value_descriptions_list_version (xs : List PyVal) :
    ∀ dbc dbc' : DbcFile, DbcFactory.process_value_descriptions_list dbc xs = .ok dbc' →
      dbc'.version = dbc.version := by
  induction xs with
  | nil =>
    intro dbc dbc' h
    unfold DbcFactory.process_value_descriptions_list at h
    injection h with h; subst h; rfl
  | cons x rest ih =>
    intro dbc dbc' h
    unfold DbcFactory.process_value_descriptions_list at h
    obtain ⟨dbc1, hdbc1, h⟩ := except_bind_ok h
    rw [ih dbc1 dbc' h, process_value_description_version hdbc1]

/-- A `SIG_GROUP_` statement never touches `version`. -/
theorem process_signal_group_version {dbc dbc' : DbcFile} {sg : PyVal}
    (h : DbcFactory.process_signal_group dbc sg = .ok dbc') :
    dbc'.version = dbc.version := by
  unfold DbcFactory.process_signal_group at h
  repeat'
    first
    | (obtain ⟨_, _, h⟩ := except_bind_ok h)
    | (split at h)
  all_goals
    first
    | (injection h with h; subst h; rfl)
    | (injection h)

/-- The `SIG_GROUP_` loop never touches `version`. -/
theorem process_signal_groups_list_version (xs : List PyVal) :
    ∀ dbc dbc' : DbcFile, DbcFactory.process_signal_groups_list dbc xs = .ok dbc' →
      dbc'.version = dbc.version := by
  induction xs with
  | nil =>
    intro dbc dbc' h
    unfold DbcFactory.process_signal_groups_list at h
    injection h with h; subst h; rfl
  | cons x rest ih =>
    intro dbc dbc' h
    unfold DbcFactory.process_signal_groups_list at h
    obtain ⟨dbc1, hdbc1, h⟩ := except_bind_ok h
    rw [ih dbc1 dbc' h, process_signal_group_version hdbc1]

/-- A comment whose token list is not the length-3 global form never
touches `version`. -/
theorem process_comment_version {dbc dbc' : DbcFile} {c : PyVal}
    (hlen : c.length ≠ 3) (h : DbcFactory.process_comment dbc c = .ok dbc') :
    dbc'.version = dbc.version := by
  unfold DbcFactory.process_comment at h
  rw [if_neg hlen] at h
  repeat'
    first
    | (obtain ⟨_, _, h⟩ := except_bind_ok h)
    | (split at h)
  all_goals
    first
    | (injection h with h; subst h; rfl)
    | (injection h)

/-- A comment list with no length-3 entry never touches `version`. -/
theorem process_comments_list_version (xs : List PyVal) :
    ∀ dbc dbc' : DbcFile, (∀ c ∈ xs, c.length ≠ 3) →
      DbcFactory.process_comments_list dbc xs = .ok dbc' →
      dbc'.version = dbc.version := by
  induction xs with
  | nil =>
    intro dbc dbc' _ h
    unfold DbcFactory.process_comments_list at h
    injection h with h; subst h; rfl
  | cons x rest ih =>
    intro dbc dbc' hlen h
    unfold DbcFactory.process_comments_list at h
    obtain ⟨dbc1, hdbc1, h⟩ := except_bind_ok h
    rw [ih dbc1 dbc' (fun c hc => hlen c (List.mem_cons_of_mem x hc)) h,
        process_comment_version (hlen x (List.mem_cons_self x rest)) hdbc1]

/-- The nodes pass never touches `version`. -/
theorem process_nodes_version {ast : PyVal} {dbc dbc' : DbcFile}
    (h : DbcFactory.process_nodes ast dbc = .ok dbc') : dbc'.version = dbc.version := by
  unfold DbcFactory.process_nodes at h
  obtain ⟨x1, hx1, h⟩ := except_bind_ok h
  obtain ⟨x2, hx2, h⟩ := except_bind_ok h
  obtain ⟨x3, hx3, h⟩ := except_bind_ok h
  exact process_nodes_list_version x3 dbc dbc' h

/-- The value-tables pass never touches `version`. -/
theorem process_value_tables_version {ast : PyVal} {dbc dbc' : DbcFile}
    (h : DbcFactory.process_value_tables ast dbc = .ok dbc') : dbc'.version = dbc.version := by
  unfold DbcFactory.process_value_tables at h
  obtain ⟨x1, hx1, h⟩ := except_bind_ok h
  obtain ⟨x2, hx2, h⟩ := except_bind_ok h
  exact process_value_tables_list_version x2 dbc dbc' h

/-- The messages pass never touches `version`. -/
theorem process_messages_version {ast : PyVal} {dbc dbc' : DbcFile}
    (h : DbcFactory.process_messages ast dbc = .ok dbc') : dbc'.version = dbc.version := by
  unfold DbcFactory.process_messages at h
  obtain ⟨x1, hx1, h⟩ := except_bind_ok h
  obtain ⟨x2, hx2, h⟩ := except_bind_ok h
  exact process_messages_list_version x2 dbc dbc' h

/-- The environment-variables pass never touches `version`. -/
theorem process_environment_variables_version {ast : PyVal} {dbc dbc' : DbcFile}
    (h : DbcFactory.process_environment_variables ast dbc = .ok dbc') : dbc'.version = dbc.version := by
  unfold DbcFactory.process_environment_variables at h
  obtain ⟨x1, hx1, h⟩ := except_bind_ok h
  obtain ⟨x2, hx2, h⟩ := except_bind_ok h
  exact process_environment_variables_list_version x2 dbc dbc' h

/-- The envvar-data pass never touches `version`. -/
theorem process_environment_variables_data_version {ast : PyVal} {dbc dbc' : DbcFile}
    (h : DbcFactory.process_environment_variables_data ast dbc = .ok dbc') : dbc'.version = dbc.version := by
  unfold DbcFactory.process_environment_variables_data at h
  obtain ⟨x1, hx1, h⟩ := except_bind_ok h
  obtain ⟨x2, hx2, h⟩ := except_bind_ok h
  exact process_environment_variables_data_list_version x2 dbc dbc' h

/-- The attributes pass never touches `version`. -/
theorem process_attributes_version {ast : PyVal} {dbc dbc' : DbcFile}
    (h : DbcFactory.process_attributes ast dbc = .ok dbc') : dbc'.version = dbc.version := by
  unfold DbcFactory.process_attributes at h
  obtain ⟨x1, hx1, h⟩ := except_bind_ok h
  obtain ⟨x2, hx2, h⟩ := except_bind_ok h
  obtain ⟨d1, hd1, h⟩ := except_bind_ok h
  obtain ⟨x3, hx3, h⟩ := except_bind_ok h
  obtain ⟨x4, hx4, h⟩ := except_bind_ok h
  obtain ⟨d2, hd2, h⟩ := except_bind_ok h
  obtain ⟨x5, hx5, h⟩ := except_bind_ok h
  obtain ⟨x6, hx6, h⟩ := except_bind_ok h
  obtain ⟨st, hst, h⟩ := except_bind_ok h
  injection h with h
  rw [← h, process_attribute_values_list_version x6 d2 Option.none st hst,
      process_attribute_defaults_list_version x4 d1 d2 hd2,
      process_attribute_definitions_list_version x2 dbc d1 hd1]

/-- The value-descriptions pass never touches `version`. -/
theorem process_value_descriptions_version {ast : PyVal} {dbc dbc' : DbcFile}
    (h : DbcFactory.process_value_descriptions ast dbc = .ok dbc') : dbc'.version = dbc.version := by
  unfold DbcFactory.process_value_descriptions at h
  obtain ⟨x1, hx1, h⟩ := except_bind_ok h
  obtain ⟨x2, hx2, h⟩ := except_bind_ok h
  exact process_value_descriptions_list_version x2 dbc dbc' h

/-- The extended-value-type pass never touches `version`. -/
theorem process_signal_type_refs_version {ast : PyVal} {dbc dbc' : DbcFile}
    (h : DbcFactory.process_signal_type_refs ast dbc = .ok dbc') : dbc'.version = dbc.version := by
  unfold DbcFactory.process_signal_type_refs at h
  obtain ⟨x1, hx1, h⟩ := except_bind_ok h
  obtain ⟨x2, hx2, h⟩ := except_bind_ok h
  exact process_signal_type_refs_list_version x2 dbc dbc' h

/-- The signal-groups pass never touches `version`. -/
theorem process_signal_groups_version {ast : PyVal} {dbc dbc' : DbcFile}
    (h : DbcFactory.process_signal_groups ast dbc = .ok dbc') : dbc'.version = dbc.version := by
  unfold DbcFactory.process_signal_groups at h
  obtain ⟨x1, hx1, h⟩ := except_bind_ok h
  obtain ⟨x2, hx2, h⟩ := except_bind_ok h
  exact process_signal_groups_list_version x2 dbc dbc' h

/-- Without a `VERSION` directive the version pass is the identity. -/
theorem process_version_absent {ast : PyVal} {dbc dbc' : DbcFile}
    (hv : ast.attrE "version" = .ok .none)
    (h : DbcFactory.process_version ast dbc = .ok dbc') : dbc' = dbc := by
  unfold DbcFactory.process_version at h
  rw [hv] at h
  simp [Bind.bind, Except.bind] at h
  exact h.symm

/-- The comments pass with no length-3 (global) comment never touches
`version`. -/
theorem process_comments_version {ast : PyVal} {dbc dbc' : DbcFile} {cs : List PyVal}
    (hc : (ast.attrE "comments" >>= PyVal.items) = .ok cs)
    (hlen : ∀ c ∈ cs, c.length ≠ 3)
    (h : DbcFactory.process_comments ast dbc = .ok dbc') : dbc'.version = dbc.version := by
  unfold DbcFactory.process_comments at h
  obtain ⟨x1, hx1, h⟩ := except_bind_ok h
  obtain ⟨x2, hx2, h⟩ := except_bind_ok h
  obtain ⟨y, hy, hcs⟩ := except_bind_ok hc
  rw [hx1] at hy
  injection hy with hy
  subst hy
  rw [hx2] at hcs
  injection hcs with hcs
  subst hcs
  exact process_comments_list_version x2 dbc dbc' hlen h

/-- C6: `DbcFile.version` starts as `"N/A"` and stays `"N/A"` through a
whole parse that has neither a `VERSION` directive nor a file-level
comment; a `VERSION "X"` directive sets it to `X`; a file-level
`CM_ "Y";` overrides it to `Y` (there is no separate description field for
the file); and the `BU_`/`BO_`/`SG_`/`EV_` comment forms instead set the
`description` of the resolved node, message, signal, or environment
variable. -/
theorem version_semantics :
    (DbcFile.empty.version = "N/A") ∧
    (∀ (ast : PyVal) (dbc : DbcFile) (kw s v : String),
      ast.attrE "version" = .ok (.list [.str kw, .str s]) →
      read_char_string s = .ok v →
      DbcFactory.process_version ast dbc = .ok { dbc with version := v }) ∧
    (∀ (dbc : DbcFile) (k s t v : String),
      read_char_string s = .ok v →
      DbcFactory.process_comment dbc (.list [.str k, .str s, .str t]) =
        .ok { dbc with version := v }) ∧
    (∀ (dbc : DbcFile) (k nm s t v : String) (node : DbcNode),
      dbc.get_node nm = .ok node → read_char_string s = .ok v →
      DbcFactory.process_comment dbc (.list [.str k, .str "BU_", .str nm, .str s, .str t]) =
        .ok (dbc.set_node nm { node with description := v })) ∧
    (∀ (dbc : DbcFile) (k mt s t v : String) (mid : Int) (msg : DbcMessage),
      read_int (.str mt) = .ok mid → dbc.get_message mid = .ok msg →
      read_char_string s = .ok v →
      DbcFactory.process_comment dbc (.list [.str k, .str "BO_", .str mt, .str s, .str t]) =
        .ok (dbc.set_message mid { msg with description := v })) ∧
    (∀ (dbc : DbcFile) (k kw2 mt sn s t v : String) (mid : Int) (msg : DbcMessage) (sig : DbcSignal),
      read_int (.str mt) = .ok mid → dbc.get_message mid = .ok msg →
      msg.get_signal sn = .ok sig → read_char_string s = .ok v →
      DbcFactory.process_comment dbc (.list [.str k, .str kw2, .str mt, .str sn, .str s, .str t]) =
        .ok (dbc.set_message mid (msg.set_signal sn { sig with description := v }))) ∧
    (∀ (dbc : DbcFile) (k en s t v : String) (ev : DbcEnvironmentVariable),
      dbc.get_environment_variable en = .ok ev → read_char_string s = .ok v →
      DbcFactory.process_comment dbc (.list [.str k, .str "EV_", .str en, .str s, .str t]) =
        .ok (dbc.set_environment_variable en { ev with description := v })) ∧
    (∀ (ast : PyVal) (dbc' : DbcFile) (cs : List PyVal),
      ast.attrE "version" = .ok .none →
      (ast.attrE "comments" >>= PyVal.items) = .ok cs →
      (∀ c ∈ cs, c.length ≠ 3) →
      DbcFactory.create_dbc ast = .ok dbc' →
      dbc'.version = "N/A") := by
  refine ⟨rfl, ?_, ?_, ?_, ?_, ?_, ?_, ?_⟩
  · intro ast dbc kw s v hv hs
    unfold DbcFactory.process_version
    rw [hv]
    simp [Bind.bind, Except.bind, PyVal.get, List.get?, PyVal.asStr, hs]
  · intro dbc k s t v hs
    unfold DbcFactory.process_comment
    simp [PyVal.length, Bind.bind, Except.bind, PyVal.get, List.get?, PyVal.asStr, hs]
  · intro dbc k nm s t v node hnode hs
    unfold DbcFactory.process_comment
    simp [PyVal.length, Bind.bind, Except.bind, PyVal.get, List.get?, PyVal.asStr, hnode, hs]
  · intro dbc k mt s t v mid msg hmid hmsg hs
    unfold DbcFactory.process_comment
    simp [PyVal.length, Bind.bind, Except.bind, PyVal.get, List.get?, PyVal.asStr,
          hmid, hmsg, hs]
  · intro dbc k kw2 mt sn s t v mid msg sig hmid hmsg hsig hs
    unfold DbcFactory.process_comment
    simp [PyVal.length, Bind.bind, Except.bind, PyVal.get, List.get?, PyVal.asStr,
          hmid, hmsg, hsig, hs]
  · intro dbc k en s t v ev hev hs
    unfold DbcFactory.process_comment
    simp [PyVal.length, Bind.bind, Except.bind, PyVal.get, List.get?, PyVal.asStr, hev, hs]
  · intro ast dbc' cs hver hcomm hlen h
    unfold DbcFactory.create_dbc at h
    obtain ⟨d1, hd1, h⟩ := except_bind_ok h
    obtain ⟨d2, hd2, h⟩ := except_bind_ok h
    obtain ⟨d3, hd3, h⟩ := except_bind_ok h
    obtain ⟨d4, hd4, h⟩ := except_bind_ok h
    obtain ⟨d5, hd5, h⟩ := except_bind_ok h
    obtain ⟨d6, hd6, h⟩ := except_bind_ok h
    obtain ⟨d7, hd7, h⟩ := except_bind_ok h
    obtain ⟨d8, hd8, h⟩ := except_bind_ok h
    obtain ⟨d9, hd9, h⟩ := except_bind_ok h
    obtain ⟨d10, hd10, h⟩ := except_bind_ok h
    have e1 : d1 = DbcFile.empty := process_version_absent hver hd1
    rw [process_signal_groups_version h, process_signal_type_refs_version hd10,
        process_value_descriptions_version hd9, process_attributes_version hd8,
        process_comments_version hcomm hlen hd7,
        process_environment_variables_data_version hd6,
        process_environment_variables_version hd5, process_messages_version hd4,
        process_value_tables_version hd3, process_nodes_version hd2, e1]
    rfl

/-- Witness for C6: the `VERSION "X"` conjunct applied at a concrete parse
tree and `DbcFile`. -/
theorem version_semantics_witness :
    DbcFactory.process_version
      (.dict [("version", .list [.str "VERSION", .str "\"X\""])]) DbcFile.empty =
      .ok { DbcFile.empty with version := "X" } :=
  version_semantics.2.1 (.dict [("version", .list [.str "VERSION", .str "\"X\""])])
    DbcFile.empty "VERSION" "\"X\"" "X" (by decide) (by decide)
